import Mathlib

/-!
BakeFlow: order-status workflow and conversational ordering state machine.

A shallow embedding of the Go backend of BakeFlow
(`backend/controllers/admin.go`, `backend/models/order.go`,
`backend/controllers/postback_handler.go`, `ui_helpers.go`, `types.go`, ...)
together with theorems about it.

Conventions of the embedding.

* Go `int` is a 64-bit machine integer; it is modelled by `Int`, and every
  `int` addition of the source wraps through `wrapInt`.
* Go maps with string keys are association lists read with `List.lookup`.
* The database behind `configs.DB` is a table of rows; driver failures are
  supplied by an environment record, so that both the succeeding and the
  failing outcome of every call are covered.
* HTTP headers (CORS, Content-Type) are not modelled; status code and body are.
-/

namespace BakeFlow

/-! ## Go runtime helpers -/

/-- Two's complement wrap of an integer into the range of a 64-bit Go `int`. -/
def wrapInt (x : Int) : Int := (x + 2 ^ 63) % 2 ^ 64 - 2 ^ 63

/-- Go `a + b` on `int`. -/
def addInt (a b : Int) : Int := wrapInt (a + b)

/-- The `%d` verb of `fmt` applied to an `int`. -/
def fmtInt (x : Int) : String := toString x

/-- Value of a run of decimal digits. -/
def digitsValue (cs : List Char) : Nat :=
  cs.foldl (fun acc c => 10 * acc + (c.toNat - 48)) 0

/-- Go `strconv.Atoi` on a 64-bit platform: an optional sign followed by at
least one decimal digit, the value within the range of `int`; `none` stands
for a non-nil error. -/
def Atoi (s : String) : Option Int :=
  let cs := s.toList
  let negative := cs.head? == some '-'
  let ds := if cs.head? == some '-' || cs.head? == some '+' then cs.tail else cs
  if ds.isEmpty || !ds.all Char.isDigit then none
  else
    let v : Int := if negative then -(digitsValue ds : Int) else (digitsValue ds : Int)
    if -(2 ^ 63 : Int) ≤ v ∧ v < 2 ^ 63 then some v else none

/-- Result of a Go call that returns `(value, error)` and may also panic. -/
inductive GoResult (α : Type) where
  | ok (a : α)
  | err (e : String)
  | panicked (msg : String)
  deriving DecidableEq, Repr

/-! ## Persisted orders (`models/order.go`) -/

/-- Row of table `orders` as scanned into `models.Order`. The monetary
columns, the timestamps and the item list are not read by the status workflow
and are left out. -/
structure Order where
  ID : Int
  CustomerName : String
  DeliveryType : String
  Address : String
  Status : String
  TotalItems : Int
  ReorderedFrom : Option Int
  RatingID : Option Int
  SenderID : String
  deriving DecidableEq, Repr

/-- The database handle `configs.DB`: `connected = false` is the nil handle. -/
structure DB where
  connected : Bool
  orders : List Order
  deriving DecidableEq, Repr

/-- Outcome of the outbound call `SendMessage` made by a background task. -/
inductive SendResult where
  | ok
  | failed (e : String)
  | panicked (r : String)
  deriving DecidableEq, Repr

/-- Behaviour of the collaborators during one request: a driver error for the
`SELECT`, a driver error for the `UPDATE`, and the outcome of `SendMessage`. -/
structure Env where
  queryErr : Option String
  execErr : Option String
  send : SendResult
  deriving DecidableEq, Repr

/-- `models.GetOrderByID`: `SELECT ... FROM orders WHERE id = $1` read with
`QueryRow(...).Scan`, which yields the first matching row or the error
`sql.ErrNoRows`; `env.queryErr` is any other error of the query or the scan.
Calling it on the nil handle dereferences nil. -/
def GetOrderByID (env : Env) (db : DB) (orderID : Int) : GoResult Order :=
  if !db.connected then .panicked "invalid memory address or nil pointer dereference"
  else
    match env.queryErr with
    | some e => .err e
    | none =>
      match db.orders.find? (fun o => o.ID == orderID) with
      | none => .err "sql: no rows in result set"
      | some o => .ok o

/-- Effect of `UPDATE orders SET status = $1 WHERE id = $2` on one row. -/
def setStatusWhere (orderID : Int) (newStatus : String) (o : Order) : Order :=
  if o.ID == orderID then { o with Status := newStatus } else o

/-- `models.UpdateOrderStatus`: `UPDATE orders SET status = $1 WHERE id = $2`.
Returns the store after the call and the error, if any. -/
def UpdateOrderStatus (env : Env) (db : DB) (orderID : Int) (newStatus : String) :
    DB × Option String :=
  if !db.connected then (db, some "sql: connection is already closed")
  else
    match env.execErr with
    | some e => (db, some e)
    | none =>
      ({ db with orders := db.orders.map (setStatusWhere orderID newStatus) }, none)

/-! ## HTTP layer (`controllers/admin.go`) -/

/-- JSON scalar in a response body. -/
inductive JVal where
  | bool (b : Bool)
  | int (n : Int)
  | str (s : String)
  deriving DecidableEq, Repr

/-- Body written to the `http.ResponseWriter`. -/
inductive Body where
  | empty
  | text (s : String)
  | json (fields : List (String × JVal))
  deriving DecidableEq, Repr

/-- Status code and body of an HTTP response. -/
structure Response where
  code : Nat
  body : Body
  deriving DecidableEq, Repr

/-- Go `http.Error(w, msg, code)`: the message followed by a newline. -/
def httpError (msg : String) (code : Nat) : Response :=
  { code := code, body := .text (msg ++ "\n") }

/-- The request as the handler reads it: the method, the `id` path variable
and the `status` field of the decoded JSON body (`none` when decoding fails). -/
structure Request where
  Method : String
  id : String
  Status : Option String
  deriving DecidableEq, Repr

/-- Everything observable of one run of a handler. `resp = none` means the
handler panicked before writing a response. `writes` lists the `UPDATE`
statements issued, `sends` the `SendMessage` calls attempted. -/
structure Outcome where
  db : DB
  resp : Option Response
  writes : List (Int × String)
  sends : List (String × String)
  logs : List String
  deriving DecidableEq, Repr

/-- Map `validStatuses` of `AdminUpdateOrderStatus`. -/
def validStatuses : List (String × Bool) :=
  [("pending", true), ("preparing", true), ("ready", true), ("delivered", true)]

/-- Map `allowedNext` of `AdminUpdateOrderStatus`. -/
def allowedNext : List (String × String) :=
  [("pending", "preparing"), ("preparing", "ready"), ("ready", "delivered"), ("delivered", "")]

/-- Map `statusMessages` of the notification task, each template applied to
the order id. -/
def statusMessages : List (String × (Int → String)) :=
  [("pending", fun n => "✅ Your order #" ++ fmtInt n ++
      " has been received! We'll start preparing it soon."),
   ("preparing", fun n => "🍰 Great news! We've started preparing your order #" ++ fmtInt n ++
      ". It will be ready soon!"),
   ("ready", fun n => "✅ Your order #" ++ fmtInt n ++
      " is ready! Please come pick it up or wait for delivery."),
   ("delivered", fun n => "🎉 Your order #" ++ fmtInt n ++
      " has been delivered! Enjoy your delicious treats!")]

/-- Body of the notification goroutine started by `AdminUpdateOrderStatus`:
the messages it attempts to send and the lines it logs. -/
def notifyTask (env : Env) (orderID : Int) (senderID status : String) :
    List (String × String) × List String :=
  match statusMessages.lookup status with
  | some msgTemplate =>
    let text := msgTemplate orderID
    match env.send with
    | .ok => ([(senderID, text)],
        ["📬 Async status notification queued for order #" ++ fmtInt orderID])
    | .failed e => ([(senderID, text)],
        ["⚠️ Failed to send async notification for order #" ++ fmtInt orderID ++ ": " ++ e])
    | .panicked r => ([(senderID, text)],
        ["⚠️ Panic recovered in notification goroutine for order #" ++ fmtInt orderID ++
          ": " ++ r])
  | none =>
    ([], ["ℹ️ Status '" ++ status ++ "' not configured for notifications (order #" ++
      fmtInt orderID ++ ")"])

/-- `controllers.AdminUpdateOrderStatus`. -/
def AdminUpdateOrderStatus (env : Env) (db : DB) (r : Request) : Outcome :=
  let reply (resp : Response) (logs : List String) : Outcome :=
    { db := db, resp := some resp, writes := [], sends := [], logs := logs }
  if r.Method = "OPTIONS" then reply { code := 200, body := .empty } []
  else
    match Atoi r.id with
    | none => reply (httpError "Invalid order ID" 400) []
    | some orderID =>
      match r.Status with
      | none => reply (httpError "Invalid request body" 400) []
      | some status =>
        if !(validStatuses.lookup status).getD false then
          reply (httpError "Invalid status" 400) []
        else
          match GetOrderByID env db orderID with
          | .panicked _ => { db := db, resp := none, writes := [], sends := [], logs := [] }
          | .err e =>
            reply (httpError "Order not found" 404)
              ["❌ Failed to load order #" ++ fmtInt orderID ++ " before update: " ++ e]
          | .ok currentOrder =>
            match allowedNext.lookup currentOrder.Status with
            | none => reply (httpError "Invalid current status" 400) []
            | some next =>
              if next = "" then
                reply ⟨200, .json
                  [("success", .bool true), ("duplicate", .bool true),
                   ("order_id", .int orderID), ("status", .str currentOrder.Status),
                   ("message", .str "Order already delivered")]⟩ []
              else if status ≠ next then
                reply (httpError
                  ("Invalid transition: " ++ currentOrder.Status ++ " -> " ++ status) 400) []
              else if currentOrder.Status = status then
                reply ⟨200, .json
                  [("success", .bool true), ("duplicate", .bool true),
                   ("order_id", .int orderID), ("status", .str currentOrder.Status),
                   ("message", .str "Status unchanged")]⟩ []
              else
                match UpdateOrderStatus env db orderID status with
                | (db1, some e) =>
                  { db := db1, resp := some (httpError "Error updating order status" 500),
                    writes := [(orderID, status)], sends := [],
                    logs := ["❌ Error updating order status: " ++ e] }
                | (db1, none) =>
                  let resp : Response := ⟨200, .json
                    [("success", .bool true), ("order_id", .int orderID),
                     ("new_status", .str status), ("message", .str "Order status updated"),
                     ("notification_dispatched", .bool (currentOrder.SenderID != ""))]⟩
                  let log1 := "✅ Order #" ++ fmtInt orderID ++ " status updated to: " ++ status
                  if currentOrder.SenderID != "" then
                    let task := notifyTask env orderID currentOrder.SenderID status
                    { db := db1, resp := some resp, writes := [(orderID, status)],
                      sends := task.1, logs := log1 :: task.2 }
                  else
                    { db := db1, resp := some resp, writes := [(orderID, status)],
                      sends := [],
                      logs := [log1, "ℹ️ No SenderID for order #" ++ fmtInt orderID ++
                        "; skipping async notification"] }


/-! ## Sample data -/

/-- Sample order row with the given id, status and sender. -/
def sampleOrder (id : Int) (status sender : String) : Order :=
  { ID := id, CustomerName := "Ana", DeliveryType := "pickup", Address := "Pickup at store",
    Status := status, TotalItems := 2, ReorderedFrom := none, RatingID := none,
    SenderID := sender }

/-- Environment in which every collaborator call succeeds. -/
def envOk : Env := { queryErr := none, execErr := none, send := .ok }

/-- Status-update request for order `id`. -/
def putStatus (id status : String) : Request :=
  { Method := "PUT", id := id, Status := some status }

/-- The three transitions of the chain `pending -> preparing -> ready -> delivered`. -/
def forwardSteps : List (String × String) :=
  [("pending", "preparing"), ("preparing", "ready"), ("ready", "delivered")]

/-- The four statuses of the workflow. -/
def workflowStatuses : List String := ["pending", "preparing", "ready", "delivered"]

/-- Position of a status in the chain. -/
def statusRank (s : String) : Nat :=
  if s = "pending" then 0 else if s = "preparing" then 1 else if s = "ready" then 2 else 3

/-- The stored row of an order id. -/
def storedOrder (db : DB) (id : Int) : Option Order :=
  db.orders.find? (fun o => o.ID == id)

/-- The store after a sequence of status-update requests, each served under its
own collaborator behaviour. -/
def runRequests (db : DB) (calls : List (Env × Request)) : DB :=
  calls.foldl (fun d c => (AdminUpdateOrderStatus c.1 d c.2).db) db


/-! ## Conversation state (`controllers/types.go`) -/

/-- One line of the shopping cart (`controllers.CartItem`). -/
structure CartItem where
  Product : String
  ProductEmoji : String
  Quantity : Int
  deriving DecidableEq, Repr

/-- Conversation state of one user (`controllers.UserState`). A nil `Cart`
slice and an empty one are both the empty list. -/
structure UserState where
  State : String
  Language : String
  CurrentProduct : String
  CurrentEmoji : String
  CurrentQuantity : Int
  Cart : List CartItem
  CustomerName : String
  DeliveryType : String
  Address : String
  deriving DecidableEq, Repr

/-- The value `&UserState{State: "language_selection"}` created on first contact. -/
def initialUserState : UserState :=
  { State := "language_selection", Language := "", CurrentProduct := "", CurrentEmoji := "",
    CurrentQuantity := 0, Cart := [], CustomerName := "", DeliveryType := "", Address := "" }

/-- Catalog entry (`controllers.Product`). -/
structure Product where
  Name : String
  Emoji : String
  Description : String
  ImageURL : String
  Price : String
  deriving DecidableEq, Repr

/-- The map `ProductCatalog`. -/
def ProductCatalog : List (String × Product) :=
  [("Chocolate Cake", ⟨"Chocolate Cake", "🍫", "Rich, moist chocolate cake",
      "https://images.unsplash.com/photo-1578985545062-69928b1d9587?w=400", "$25.00"⟩),
   ("Vanilla Cake", ⟨"Vanilla Cake", "🎂", "Classic vanilla layer cake",
      "https://images.unsplash.com/photo-1464349095431-e9a21285b5f3?w=400", "$24.00"⟩),
   ("Red Velvet Cake", ⟨"Red Velvet Cake", "❤️", "Smooth red velvet with cream cheese",
      "https://images.unsplash.com/photo-1586985289688-ca3cf47d3e6e?w=400", "$28.00"⟩),
   ("Croissant", ⟨"Croissant", "🥐", "Buttery, flaky croissant",
      "https://images.unsplash.com/photo-1555507036-ab1f4038808a?w=400", "$4.50"⟩),
   ("Cinnamon Roll", ⟨"Cinnamon Roll", "🥯", "Sweet cinnamon roll with glaze",
      "https://images.unsplash.com/photo-1509440159596-0249088772ff?w=400", "$5.00"⟩),
   ("Chocolate Cupcake", ⟨"Chocolate Cupcake", "🧁", "Chocolate cupcake with frosting",
      "https://images.unsplash.com/photo-1614707267537-b85aaf00c4b7?w=400", "$3.50"⟩),
   ("Coffee", ⟨"Coffee", "☕", "Freshly brewed coffee",
      "https://images.unsplash.com/photo-1509042239860-f550ce710b93?w=400", "$5.00"⟩),
   ("Bread", ⟨"Bread", "🍞", "Fresh artisan bread loaf",
      "https://images.unsplash.com/photo-1509440159596-0249088772ff?w=400", "$6.00"⟩)]

/-- Go map read `ProductCatalog[key]`: the zero `Product` when the key is absent. -/
def catalogEntry (key : String) : Product :=
  (ProductCatalog.lookup key).getD ⟨"", "", "", "", ""⟩

/-- Quick reply button (`controllers.QuickReply`). -/
structure QuickReply where
  ContentType : String
  Title : String
  Payload : String
  deriving DecidableEq, Repr

/-- Template button (`controllers.Button`, whose field `Type` is `ButtonType`
here); unset fields are zero values. -/
structure Button where
  ButtonType : String
  Title : String
  Payload : String := ""
  URL : String := ""
  WebviewHeightRatio : String := ""
  MessengerExtensions : Bool := false
  deriving DecidableEq, Repr

/-- Card of a generic template (`controllers.Element`). -/
structure Element where
  Title : String
  ImageURL : String := ""
  Subtitle : String
  Buttons : List Button
  deriving DecidableEq, Repr

/-- Call made to the messaging platform. The calls return errors that the
conversation code ignores. -/
inductive Outbound where
  | message (userID text : String)
  | typing (userID : String) (enabled : Bool)
  | quickReplies (userID text : String) (replies : List QuickReply)
  | genericTemplate (userID : String) (elements : List Element)
  | buttonTemplate (userID text : String) (buttons : List Button)
  deriving DecidableEq, Repr

/-- Process state seen by the conversation code. `UserStates` maps a user id
to a pointer; `heap` holds the `UserState` each pointer refers to and `next`
is the first address never allocated; `sent` lists the outbound calls in
order; `panicked` records a runtime panic. -/
structure World where
  heap : Nat → UserState
  next : Nat
  UserStates : String → Option Nat
  sent : List Outbound
  panicked : Option String

/-- The world at process start: no user is known and nothing was sent. -/
def World.start : World :=
  { heap := fun _ => initialUserState, next := 0, UserStates := fun _ => none, sent := [],
    panicked := none }

/-- Write through a `*UserState` pointer. -/
def World.modify (w : World) (p : Nat) (f : UserState → UserState) : World :=
  { w with heap := Function.update w.heap p (f (w.heap p)) }

/-- Record an outbound call. -/
def World.emit (w : World) (m : Outbound) : World :=
  { w with sent := w.sent ++ [m] }

/-- `GetUserState`: the pointer stored for the user, allocating the initial
state on first contact. -/
def GetUserState (userID : String) (w : World) : Nat × World :=
  match w.UserStates userID with
  | some p => (p, w)
  | none =>
    (w.next,
      { w with
        heap := Function.update w.heap w.next initialUserState
        next := w.next + 1
        UserStates := Function.update w.UserStates userID (some w.next) })

/-- `ResetUserState`: `delete(UserStates, userID)`. -/
def ResetUserState (userID : String) (w : World) : World :=
  { w with UserStates := Function.update w.UserStates userID none }

/-- The user's conversation state as the next event will observe it. -/
def observedState (userID : String) (w : World) : UserState :=
  (GetUserState userID w).2.heap (GetUserState userID w).1

/-- Functions of the package that the conversation code calls and whose
source is not part of this development, together with the two renderings that
depend on the product table and on `float64` formatting. -/
structure Collab where
  checkBusinessHours : String → World → Bool × World
  showOrderHistory : String → World → World
  showHelp : String → World → World
  goBack : String → World → World
  confirmOrder : String → World → World
  handleRating : String → Int → World → World
  handleReorder : String → Int → World → World
  askForRating : String → Int → World → World
  /-- `models.GetProductByID`: name and category of the product, `none` when
  the row is missing or the query fails. -/
  productByID : Int → Option (String × String)
  /-- Value of `getProductElements()`. -/
  productElements : List Element
  /-- Modelled from the spec: `calculateOrderTotals`, absent from the sources,
  is the pure pricing function of cart, delivery type and address, so the text
  that `showOrderSummary` builds with it is a function of the state. -/
  orderSummaryText : UserState → String

/-- Go `strings.HasPrefix`. -/
def startsWithStr (s p : String) : Bool := p.toList.isPrefixOf s.toList

/-- Go `strings.TrimPrefix`. -/
def dropLeading (s p : String) : String :=
  if startsWithStr s p then String.mk (s.toList.drop p.length) else s

/-- Go `unicode.ToLower` as far as the result can be an ASCII letter: the
ASCII capitals, the Kelvin sign (U+212A) and the dotted capital I (U+0130). -/
def lowerChar (c : Char) : Char :=
  if c = '\u212A' then 'k' else if c = '\u0130' then 'i' else c.toLower

/-- Go `strings.ToLower`, exact on every string whose lower-case form is ASCII. -/
def lowerStr (s : String) : String := String.mk (s.toList.map lowerChar)

/-- Emoji chosen from a product category by the `switch` shared by
`getProductElements` and `handlePostback`. -/
def categoryEmoji (category : String) : String :=
  let c := lowerStr category
  if c = "cakes" then "🎂"
  else if c = "cupcakes" then "🧁"
  else if c = "coffee" then "☕"
  else if c = "bread" then "🍞"
  else if c = "muffins" then "🧁"
  else if c = "tarts" then "🥧"
  else if c = "pastries" then "🥐"
  else "🍰"


/-! ## Prompts (`controllers/ui_helpers.go`, `menu_simple.go`, `webview_order.go`) -/

/-- `showAbout`. -/
def showAbout (userID : String) (w : World) : World :=
  let (p, w) := GetUserState userID w
  let aboutMsg :=
    if (w.heap p).Language = "my" then
      "🏪 ကျွန်ုပ်တို့အကြောင်း\n\n" ++
      "BakeFlow သည် လတ်ဆတ်သော မုန့်များကို နေ့စဉ် ဖုတ်လုပ်သော မုန့်ဆိုင်ဖြစ်ပါသည်။\n\n" ++
      "🎂 ကျွန်ုပ်တို့၏ အထူးမုန့်များ:\n" ++
      "• ချောကလက် ကိတ်မုန့်\n" ++
      "• ဗနီလာ ကိတ်မုန့်\n" ++
      "• ဆော့ဘီ ကိတ်မုန့်\n" ++
      "• ချိစ်ကိတ်မုန့်\n" ++
      "• နီမုန့်\n" ++
      "• ချောကလက် ကွတ်ကီး\n" ++
      "• ဗာတာကွတ်ကီး\n" ++
      "• အာလုမွန့်\n\n" ++
      "📍 တည်နေရာ: ရန်ကုန်မြို့\n" ++
      "⏰ ဖွင့်ချိန်: နံနက် 8:00 - ညနေ 8:00\n" ++
      "📞 ဆက်သွယ်ရန်: +95 9 XXX XXX XXX"
    else
      "🏪 About Us\n\n" ++
      "BakeFlow is your neighborhood bakery, baking fresh daily!\n\n" ++
      "🎂 Our Specialties:\n" ++
      "• Chocolate Cake\n" ++
      "• Vanilla Cake\n" ++
      "• Strawberry Cake\n" ++
      "• Cheesecake\n" ++
      "• Red Velvet Cake\n" ++
      "• Chocolate Cookies\n" ++
      "• Butter Cookies\n" ++
      "• Almond Croissant\n\n" ++
      "📍 Location: Yangon, Myanmar\n" ++
      "⏰ Hours: 8:00 AM - 8:00 PM\n" ++
      "📞 Contact: +95 9 XXX XXX XXX"
  let helpMsg :=
    if (w.heap p).Language = "my" then
      "\n\n❓ အသုံးပြုနည်း\n\n" ++
      "သဘာဝဘာသာစကားဖြင့် ရိုက်နိုင်ပါတယ်:\n\n" ++
      "• \"မီနူး\" သို့မဟုတ် \"မုန့်များ\"\n" ++
      "• \"ချောကလက်ကိတ်မုန့်လိုချင်တယ်\"\n" ++
      "• \"နှစ်ခု\" သို့မဟုတ် \"၂\"\n" ++
      "• \"ပို့ပေးပါ\" သို့မဟုတ် \"ကိုယ်တိုင်ယူမယ်\"\n" ++
      "• \"ပယ်ဖျက်\" သို့မဟုတ် \"အစကနေစမယ်\"\n\n" ++
      "🛒 အော်ဒါမှာရန် 'မီနူး' လို့ရိုက်ပါ!"
    else
      "\n\n❓ How to Use\n\n" ++
      "You can type naturally:\n\n" ++
      "• \"menu\" or \"show products\"\n" ++
      "• \"I want chocolate cake\"\n" ++
      "• \"two\" or \"2\"\n" ++
      "• \"delivery please\" or \"pickup\"\n" ++
      "• \"cancel\" or \"start over\"\n\n" ++
      "🛒 Type 'menu' to start ordering!"
  w.emit (.message userID (aboutMsg ++ helpMsg))

/-- `showLanguageSelection`. -/
def showLanguageSelection (userID : String) (w : World) : World :=
  let (p, w) := GetUserState userID w
  let w := w.modify p (fun s => { s with State := "language_selection" })
  let welcomeMsg :=
    "Hi there! 👋 မင်္ဂလာပါ! 👋\n\n" ++
      "I'm BakeFlow Bot, your virtual bakery assistant (Beta). " ++
      "I'm still learning, so I might not have all the answers yet, but I'll try to assist you the best I can! 🍰\n\n" ++
      "ကျွန်တော် BakeFlow Bot ပါ၊ သင့်ရဲ့ မုန့်ဆိုင် အကူအညီပေး စက်ရုပ်ပါ (စမ်းသပ်ဗားရှင်း)。 " ++
      "ကျွန်တော် ယခုတော့ သင်ယူနေဆဲဖြစ်တဲ့အတွက် အားလုံးကို မဖြေနိုင်သေးပေမယ့် တတ်နိုင်သမျှ အကောင်းဆုံး ကူညီပေးပါမယ်နော်! 🍰\n\n" ++
      "Please select your language to get started.\n" ++
      "စတင်ဖို့ ဘာသာစကားကို ရွေးချယ်ပါ။"
  let w := w.emit (.message userID welcomeMsg)
  w.emit (.quickReplies userID "Choose your language / ဘာသာစကား ရွေးပါ:"
    [⟨"text", "🇬🇧 English", "LANG_EN"⟩, ⟨"text", "🇲🇲 မြန်မာ", "LANG_MY"⟩])

/-- `showMainMenuSimple`. -/
def showMainMenuSimple (userID : String) (w : World) : World :=
  let (p, w) := GetUserState userID w
  let element : Element :=
    if (w.heap p).Language = "my" then
      { Title := "ဘာလုပ်ချင်လဲ?", Subtitle := "အောက်ပါရွေးချယ်စရာများမှ ရွေးချယ်ပါ",
        Buttons := [
          { ButtonType := "postback", Title := "🛒 စတုံအိုး မှာယူမယ်", Payload := "QUICK_SHOP" },
          { ButtonType := "postback", Title := "📋 အော်ဒါရှည်း", Payload := "MENU_ORDER_PRODUCTS" },
          { ButtonType := "postback", Title := "ℹ️ အကူအညီ", Payload := "MENU_HELP" }] }
    else
      { Title := "What would you like to do?", Subtitle := "Choose an option below",
        Buttons := [
          { ButtonType := "postback", Title := "🛒 Quick Cart", Payload := "QUICK_SHOP" },
          { ButtonType := "postback", Title := "📋 Full Order", Payload := "MENU_ORDER_PRODUCTS" },
          { ButtonType := "postback", Title := "❓ Help", Payload := "MENU_HELP" }] }
  w.emit (.genericTemplate userID [element])

/-- `startOrderingFlow`. -/
def startOrderingFlow (userID : String) (w : World) : World :=
  let (p, w) := GetUserState userID w
  let w := w.modify p (fun s => { s with State := "main_menu" })
  if (w.heap p).Language = "my" then
    showMainMenuSimple userID (w.emit (.message userID "🍰 BakeFlow မှ ကြိုဆိုပါတယ်!"))
  else
    showMainMenuSimple userID (w.emit (.message userID "🍰 Welcome to BakeFlow!"))

/-- `showProducts`. -/
def showProducts (c : Collab) (userID : String) (w : World) : World :=
  let (isOpen, w) := c.checkBusinessHours userID w
  if !isOpen then w
  else
    let (p, w) := GetUserState userID w
    let w := w.modify p (fun s => { s with State := "awaiting_product" })
    w.emit (.genericTemplate userID c.productElements)

/-- `askQuantity`. -/
def askQuantity (userID : String) (w : World) : World :=
  let (p, w) := GetUserState userID w
  w.emit (.quickReplies userID
    ("How many " ++ (w.heap p).CurrentEmoji ++ " " ++ (w.heap p).CurrentProduct ++
      " would you like?")
    [⟨"text", "1", "QTY_1"⟩, ⟨"text", "2", "QTY_2"⟩, ⟨"text", "3", "QTY_3"⟩,
     ⟨"text", "4", "QTY_4"⟩, ⟨"text", "5", "QTY_5"⟩, ⟨"text", "⬅️ Back", "GO_BACK"⟩,
     ⟨"text", "❌ Cancel", "CANCEL_ORDER"⟩])

/-- `askName`. -/
def askName (userID : String) (w : World) : World :=
  let (p, w) := GetUserState userID w
  let w := w.modify p (fun s => { s with State := "awaiting_name" })
  w.emit (.quickReplies userID "Great! What's your name?"
    [⟨"text", "⬅️ Back to Cart", "GO_BACK"⟩, ⟨"text", "❌ Cancel", "CANCEL_ORDER"⟩])

/-- The loop `for _, item := range cart { totalItems += item.Quantity }`. -/
def totalItems (cart : List CartItem) : Int :=
  cart.foldl (fun acc item => addInt acc item.Quantity) 0

/-- `askAddMore`. Indexing the last element of an empty cart panics. -/
def askAddMore (userID : String) (w : World) : World :=
  let (p, w) := GetUserState userID w
  let total := totalItems (w.heap p).Cart
  match (w.heap p).Cart.getLast? with
  | none => { w with panicked := some "index out of range [-1]" }
  | some lastItem =>
    let message := "✅ " ++ fmtInt lastItem.Quantity ++ "× " ++ lastItem.ProductEmoji ++ " " ++
      lastItem.Product ++ " added\n\nCart: " ++ fmtInt total ++ " items"
    let quickReplies : List QuickReply :=
      [⟨"text", "Add More", "ADD_MORE_ITEMS"⟩,
       ⟨"text", "Checkout (" ++ fmtInt total ++ ")", "CHECKOUT"⟩,
       ⟨"text", "❌ Cancel", "CANCEL_ORDER"⟩]
    let w := w.modify p (fun s => { s with State := "awaiting_cart_decision" })
    w.emit (.quickReplies userID message quickReplies)

/-- `addToCart`. -/
def addToCart (userID : String) (w : World) : World :=
  let (p, w) := GetUserState userID w
  let cartItem : CartItem :=
    { Product := (w.heap p).CurrentProduct, ProductEmoji := (w.heap p).CurrentEmoji,
      Quantity := (w.heap p).CurrentQuantity }
  let w := w.modify p (fun s => { s with Cart := s.Cart ++ [cartItem] })
  let w := w.modify p (fun s =>
    { s with CurrentProduct := "", CurrentEmoji := "", CurrentQuantity := 0 })
  askAddMore userID w

/-- The cart listing built by `showCart`. -/
def cartDisplay (cart : List CartItem) : String :=
  cart.foldl (fun acc item => acc ++ "• " ++ fmtInt item.Quantity ++ "× " ++
    item.ProductEmoji ++ " " ++ item.Product ++ "\n") "🛒 **Your Cart:**\n\n"
  ++ "\n**Total Items:** " ++ fmtInt (totalItems cart)

/-- `showCart`. -/
def showCart (userID : String) (w : World) : World :=
  let (p, w) := GetUserState userID w
  if (w.heap p).Cart.length = 0 then
    startOrderingFlow userID
      (w.emit (.message userID "🛒 Your cart is empty!\n\nLet's start ordering!"))
  else
    w.emit (.message userID (cartDisplay (w.heap p).Cart))

/-- `showOrderSummary`: reads the state and sends the summary with the two
confirmation buttons. The text itself involves `float64` prices and
`calculateOrderTotals` and is taken from the collaborators. -/
def showOrderSummary (c : Collab) (userID : String) (w : World) : World :=
  let (p, w) := GetUserState userID w
  w.emit (.quickReplies userID (c.orderSummaryText (w.heap p))
    [⟨"text", "✅ Confirm Order", "CONFIRM_ORDER"⟩, ⟨"text", "❌ Cancel", "CANCEL_ORDER"⟩])

/-- `showMenu`. -/
def showMenu (c : Collab) (userID : String) (w : World) : World :=
  let menu :=
    "🍰 **BakeFlow Menu**\n\n" ++
      "🎂 **Cakes**\n" ++
      "  • Chocolate Cake - $25\n" ++
      "  • Vanilla Cake - $24\n" ++
      "  • Red Velvet Cake - $28\n\n" ++
      "🥐 **Pastries**\n" ++
      "  • Croissant - $4.50\n" ++
      "  • Cinnamon Roll - $5\n\n" ++
      "🧁 **Others**\n" ++
      "  • Chocolate Cupcake - $3.50\n" ++
      "  • Fresh Bread - $6\n" ++
      "  • Coffee - $5\n\n" ++
      "👇 Click the buttons below to order!"
  showProducts c userID (w.emit (.message userID menu))

/-- `ShowWebviewOrderForm`; `SendButtonTemplate` is recorded as an outbound call. -/
def ShowWebviewOrderForm (userID : String) (w : World) : World :=
  let (p, w) := GetUserState userID w
  let webviewURL :=
    "https://consuelo-subcardinal-nonfallaciously.ngrok-free.dev/order-form.html?user_id=" ++
      userID
  let msg :=
    if (w.heap p).Language = "my" then "🍰 ကျွန်ုပ်တို့၏ စတိုးအသေးမှ မှာယူပါ!"
    else "🍰 Order from our mini shop!"
  w.emit (.buttonTemplate userID msg
    [{ ButtonType := "web_url", Title := "🛒 Open Menu", URL := webviewURL,
       MessengerExtensions := true, WebviewHeightRatio := "full" }])


/-! ## Quick order (`controllers/mini_order_form.go`) -/

/-- The `%.2f` verb applied to a whole amount. -/
def fmtMoney (x : Int) : String := fmtInt x ++ ".00"

/-- `ShowMiniOrderForm`. The four prices are constants, shown as formatted. -/
def ShowMiniOrderForm (userID : String) (w : World) : World :=
  let (p, w) := GetUserState userID w
  let w := w.modify p (fun s => { s with State := "quick_ordering" })
  let topProducts : List (String × String × String × String) :=
    [("Chocolate Cake", "$25.00", "🍰", "QUICK_ORDER_CAKE"),
     ("Vanilla Cake", "$22.00", "🎂", "QUICK_ORDER_VANILLA"),
     ("Croissant", "$8.00", "🥐", "QUICK_ORDER_CROISSANT"),
     ("Cinnamon Roll", "$12.00", "🌀", "QUICK_ORDER_CINNAMON")]
  let elements : List Element := topProducts.map (fun prod =>
    { Title := prod.2.2.1 ++ " " ++ prod.1, Subtitle := prod.2.1,
      Buttons := [
        { ButtonType := "postback", Title := "➕ +1", Payload := "QUICK_ADD_" ++ prod.2.2.2 },
        { ButtonType := "postback", Title := "🛒 View", Payload := "QUICK_VIEW_" ++ prod.2.2.2 }] })
  let elements := elements ++ [
    { Title := "📋 My Cart", Subtitle := "Review items & checkout",
      Buttons := [
        { ButtonType := "postback", Title := "View Cart", Payload := "QUICK_SHOW_CART" },
        { ButtonType := "postback", Title := "Proceed", Payload := "QUICK_CHECKOUT" }] }]
  w.emit (.genericTemplate userID elements)

/-- Map `productMap` of `handleQuickAddProduct`: name, whole-dollar price, emoji. -/
def productMap : List (String × (String × Int × String)) :=
  [("QUICK_ORDER_CAKE", ("Chocolate Cake", 25, "🍰")),
   ("QUICK_ORDER_VANILLA", ("Vanilla Cake", 22, "🎂")),
   ("QUICK_ORDER_CROISSANT", ("Croissant", 8, "🥐")),
   ("QUICK_ORDER_CINNAMON", ("Cinnamon Roll", 12, "🌀"))]

/-- Map `priceMap` of `showQuickCartSummary`, in whole dollars. -/
def priceMap : List (String × Int) :=
  [("Chocolate Cake", 25), ("Vanilla Cake", 22), ("Croissant", 8), ("Cinnamon Roll", 12)]

/-- The search loop of `handleQuickAddProduct`: increment the quantity of the
first entry with the given product name; `none` when no entry has it. -/
def incrementFirst (name : String) : List CartItem → Option (List CartItem)
  | [] => none
  | item :: rest =>
    if item.Product = name then
      some ({ item with Quantity := addInt item.Quantity 1 } :: rest)
    else
      (incrementFirst name rest).map (fun r => item :: r)

/-- One pass of the pricing loop of `showQuickCartSummary`, from a running
total and text to the total and text after the cart. The amounts are whole
dollars, on which `float64` arithmetic is exact below `2^53`. -/
def quickCartLines (cart : List CartItem) (total : Int) (summary : String) : Int × String :=
  cart.foldl (fun acc item =>
    let price := (priceMap.lookup item.Product).getD 20
    let subtotal := price * item.Quantity
    (acc.1 + subtotal,
      acc.2 ++ item.ProductEmoji ++ " " ++ item.Product ++ " × " ++ fmtInt item.Quantity ++
        " = $" ++ fmtMoney subtotal ++ "\n")) (total, summary)

/-- `showQuickCartSummary`. For the language `my` the text is rebuilt by a
second pass that keeps adding to the same `total`. -/
def showQuickCartSummary (userID : String) (w : World) : World :=
  let (p, w) := GetUserState userID w
  let cart := (w.heap p).Cart
  if cart.length = 0 then
    w.emit (.message userID "🛒 Cart is empty. Add items to get started!")
  else
    let en := quickCartLines cart 0 "🛒 **Your Quick Cart:**\n\n"
    let enSummary := en.2 ++ "\n**Total: $" ++ fmtMoney en.1 ++ "**\n\n" ++
      "What would you like to do?"
    let summary :=
      if (w.heap p).Language = "my" then
        let my := quickCartLines cart en.1 "🛒 **သင်၏စတုံအိုး:**\n\n"
        my.2 ++ "\n**စုစုပေါင်း: $" ++ fmtMoney my.1 ++ "**\n\n" ++ "ဘာလုပ်မည်လဲ?"
      else enSummary
    w.emit (.quickReplies userID summary
      [⟨"text", "➕ Add More", "QUICK_ADD_MORE"⟩, ⟨"text", "🛒 Review", "QUICK_SHOW_CART"⟩,
       ⟨"text", "✅ Checkout", "QUICK_CHECKOUT"⟩, ⟨"text", "❌ Clear", "QUICK_CLEAR_CART"⟩])

/-- `handleQuickAddProduct`. -/
def handleQuickAddProduct (userID productKey : String) (w : World) : World :=
  let (p, w) := GetUserState userID w
  match productMap.lookup productKey with
  | none => w.emit (.message userID "❌ Product not found")
  | some prod =>
    let w :=
      match incrementFirst prod.1 (w.heap p).Cart with
      | some cart => w.modify p (fun s => { s with Cart := cart })
      | none => w.modify p (fun s =>
          { s with Cart := s.Cart ++
              [CartItem.mk prod.1 prod.2.2 1] })
    let msg :=
      if (w.heap p).Language = "my" then
        "✅ " ++ prod.2.2 ++ " " ++ prod.1 ++ " စတုံအိုးသို့ ထည့်သွင်းပြီး!"
      else "✅ Added " ++ prod.2.2 ++ " " ++ prod.1 ++ " to cart!"
    showQuickCartSummary userID (w.emit (.message userID msg))

/-- `handleQuickCheckout`. -/
def handleQuickCheckout (userID : String) (w : World) : World :=
  let (p, w) := GetUserState userID w
  if (w.heap p).Cart.length = 0 then
    ShowMiniOrderForm userID
      (w.emit (.message userID "❌ Cart is empty. Please add items first!"))
  else
    let w := w.modify p (fun s => { s with State := "awaiting_name" })
    let msg := if (w.heap p).Language = "my" then "📝 သင်၏နာမည်ကဘာလဲ?" else "📝 What's your name?"
    w.emit (.quickReplies userID msg
      [⟨"text", "⬅️ Back", "QUICK_ADD_MORE"⟩, ⟨"text", "❌ Cancel", "CANCEL_ORDER"⟩])

/-- `handleQuickClearCart`. -/
def handleQuickClearCart (userID : String) (w : World) : World :=
  let (p, w) := GetUserState userID w
  let w := w.modify p (fun s => { s with Cart := [] })
  let msg := if (w.heap p).Language = "my" then "🗑️ စတုံအိုးအလွတ်ပြီး!" else "🗑️ Cart cleared!"
  let w := w.emit (.message userID msg)
  w.emit (.quickReplies userID "What next?"
    [⟨"text", "🛍️ Shop", "QUICK_SHOP"⟩, ⟨"text", "🏠 Home", "MENU_ORDER"⟩])


/-! ## Postback dispatch (`controllers/postback_handler.go`) -/

/-- Corrective prompt sent when a product button arrives in another state. -/
def completeStepFirst : String :=
  "⚠️ Please complete your current step first, or type 'cancel' to start over."

/-- The body shared by the nine static product cases of `handlePostback`,
for the catalog key each case reads. -/
def selectCatalogProduct (userID key : String) (p : Nat) (w : World) : World :=
  if (w.heap p).State ≠ "awaiting_product" then w.emit (.message userID completeStepFirst)
  else
    let w := w.modify p (fun s => { s with CurrentProduct := (catalogEntry key).Name })
    let w := w.modify p (fun s => { s with CurrentEmoji := (catalogEntry key).Emoji })
    let w := w.modify p (fun s => { s with State := "awaiting_quantity" })
    askQuantity userID (w.emit (.typing userID true))

/-- The body shared by the five quantity cases of `handlePostback`. -/
def selectQuantity (userID : String) (n : Int) (p : Nat) (w : World) : World :=
  if (w.heap p).State ≠ "awaiting_quantity" then
    w.emit (.message userID "⚠️ Please select a product first!")
  else
    let w := w.modify p (fun s => { s with CurrentQuantity := n })
    addToCart userID (w.emit (.typing userID true))

/-- The `default` case of `handlePostback`: dynamic payloads, then the
catch-all. -/
def handlePostbackDefault (c : Collab) (userID payload : String) (p : Nat) (w : World) :
    World :=
  let afterProduct (w : World) : World :=
    if startsWithStr payload "QUICK_ADD_" then
      handleQuickAddProduct userID (dropLeading payload "QUICK_ADD_") w
    else if startsWithStr payload "QUICK_VIEW_" then
      handleQuickAddProduct userID (dropLeading payload "QUICK_VIEW_") w
    else
      let afterReorder (w : World) : World :=
        let catchAll (w : World) : World :=
          ResetUserState userID
            (w.emit (.message userID "Sorry, I didn't understand that. Let's start over!"))
        if startsWithStr payload "RATE_ORDER_" then
          match Atoi (dropLeading payload "RATE_ORDER_") with
          | some orderID => c.askForRating userID orderID w
          | none => catchAll w
        else catchAll w
      if startsWithStr payload "REORDER_" then
        match Atoi (dropLeading payload "REORDER_") with
        | some orderID =>
          let (isOpen, w) := c.checkBusinessHours userID w
          if !isOpen then w else c.handleReorder userID orderID w
        | none => afterReorder w
      else afterReorder w
  if startsWithStr payload "ORDER_PRODUCT_" then
    match Atoi (dropLeading payload "ORDER_PRODUCT_") with
    | some pid =>
      let (isOpen, w) := c.checkBusinessHours userID w
      if !isOpen then w
      else
        match c.productByID pid with
        | some (name, category) =>
          let w := w.modify p (fun s => { s with CurrentProduct := name })
          let w := w.modify p (fun s => { s with CurrentEmoji := categoryEmoji category })
          let w := w.modify p (fun s => { s with State := "awaiting_quantity" })
          askQuantity userID (w.emit (.typing userID true))
        | none => afterProduct w
    | none => afterProduct w
  else afterProduct w

/-- `handlePostback`. -/
def handlePostback (c : Collab) (userID payload : String) (w : World) : World :=
  let (p, w) := GetUserState userID w
  match payload with
  | "LANG_EN" =>
    let w := w.modify p (fun s => { s with Language := "en" })
    let w := w.modify p (fun s => { s with State := "greeting" })
    startOrderingFlow userID (w.emit (.message userID "✅ English selected!"))
  | "LANG_MY" =>
    let w := w.modify p (fun s => { s with Language := "my" })
    let w := w.modify p (fun s => { s with State := "greeting" })
    startOrderingFlow userID (w.emit (.message userID "✅ မြန်မာဘာသာ ရွေးချယ်ပြီးပါပြီ!"))
  | "MENU_ORDER" => startOrderingFlow userID w
  | "MENU_ORDER_HISTORY" => c.showOrderHistory userID w
  | "MENU_ABOUT" => showAbout userID w
  | "MENU_CHANGE_LANG" => showLanguageSelection userID w
  | "MENU_ORDER_PRODUCTS" => showProducts c userID w
  | "MENU_HELP" => c.showHelp userID w
  | "GET_STARTED" => showLanguageSelection userID w
  | "ORDER_CHOCOLATE_CAKE" => selectCatalogProduct userID "Chocolate Cake" p w
  | "ORDER_VANILLA_CAKE" => selectCatalogProduct userID "Vanilla Cake" p w
  | "ORDER_RED_VELVET" => selectCatalogProduct userID "Red Velvet" p w
  | "ORDER_CROISSANT" => selectCatalogProduct userID "Croissant" p w
  | "ORDER_CINNAMON_ROLL" => selectCatalogProduct userID "Cinnamon Roll" p w
  | "ORDER_CUPCAKE" => selectCatalogProduct userID "Chocolate Cupcake" p w
  | "ORDER_COFFEE" => selectCatalogProduct userID "Coffee" p w
  | "ORDER_BREAD" => selectCatalogProduct userID "Bread" p w
  | "ORDER_CHOCOLATE_CUPCAKE" => selectCatalogProduct userID "Chocolate Cupcake" p w
  | "QTY_1" => selectQuantity userID 1 p w
  | "QTY_2" => selectQuantity userID 2 p w
  | "QTY_3" => selectQuantity userID 3 p w
  | "QTY_4" => selectQuantity userID 4 p w
  | "QTY_5" => selectQuantity userID 5 p w
  | "ADD_MORE_ITEMS" => showProducts c userID w
  | "CHECKOUT" => askName userID ((showCart userID w).emit (.typing userID true))
  | "GO_BACK" => c.goBack userID w
  | "MAIN_MENU" => startOrderingFlow userID (ResetUserState userID w)
  | "PICKUP" =>
    let w := w.modify p (fun s => { s with DeliveryType := "pickup" })
    let w := w.modify p (fun s => { s with Address := "Pickup at store" })
    let w := w.modify p (fun s => { s with State := "confirming" })
    showOrderSummary c userID (w.emit (.typing userID true))
  | "DELIVERY" =>
    let w := w.modify p (fun s => { s with DeliveryType := "delivery" })
    let w := w.modify p (fun s => { s with State := "awaiting_address" })
    w.emit (.quickReplies userID
      "Perfect! Please type your delivery address:\n(Street, City, ZIP)"
      [⟨"text", "⬅️ Back", "GO_BACK"⟩, ⟨"text", "❌ Cancel", "CANCEL_ORDER"⟩])
  | "CONFIRM_ORDER" => c.confirmOrder userID (w.emit (.typing userID true))
  | "CANCEL_ORDER" =>
    let w := ResetUserState userID w
    let w := w.emit (.message userID "❌ Order cancelled.")
    let w := w.emit (.message userID "━━━━━━━━━━━━━━━━━")
    w.emit (.message userID "Ready to start fresh? Type 'menu' to see our products!")
  | "QUICK_SHOP" =>
    let w := w.modify p (fun s => { s with State := "quick_ordering" })
    ShowWebviewOrderForm userID w
  | "QUICK_SHOW_CART" => showQuickCartSummary userID w
  | "QUICK_CHECKOUT" => handleQuickCheckout userID w
  | "QUICK_ADD_MORE" =>
    let w := w.modify p (fun s => { s with State := "quick_ordering" })
    ShowMiniOrderForm userID w
  | "QUICK_CLEAR_CART" => handleQuickClearCart userID w
  | "SHOW_MENU" => showMenu c userID w
  | "RATING_1" => c.handleRating userID 1 w
  | "RATING_2" => c.handleRating userID 2 w
  | "RATING_3" => c.handleRating userID 3 w
  | "RATING_4" => c.handleRating userID 4 w
  | "RATING_5" => c.handleRating userID 5 w
  | "SKIP_RATING" =>
    ResetUserState userID (w.emit (.message userID
      "No problem! Feel free to rate us anytime.\n\nType 'menu' to order again! 🍰"))
  | _ => handlePostbackDefault c userID payload p w


/-! ## Sample data for the conversation -/

/-- Collaborators of a shop that is open, with an empty product table and
handlers that do nothing. -/
def openShop : Collab :=
  { checkBusinessHours := fun _ w => (true, w)
    showOrderHistory := fun _ w => w
    showHelp := fun _ w => w
    goBack := fun _ w => w
    confirmOrder := fun _ w => w
    handleRating := fun _ _ w => w
    handleReorder := fun _ _ w => w
    askForRating := fun _ _ w => w
    productByID := fun _ => none
    productElements := []
    orderSummaryText := fun _ => "" }

/-- World in which exactly the user `userID` is known, with state `st`. -/
def worldWith (userID : String) (st : UserState) : World :=
  { heap := fun _ => st, next := 1,
    UserStates := fun k => if k = userID then some 0 else none, sent := [], panicked := none }

/-- A user who picked a croissant after putting two coffees in the cart. -/
def pickingCroissant : UserState :=
  { State := "awaiting_quantity", Language := "en", CurrentProduct := "Croissant",
    CurrentEmoji := "🥐", CurrentQuantity := 0, Cart := [⟨"Coffee", "☕", 2⟩],
    CustomerName := "", DeliveryType := "", Address := "" }


/-- An open shop whose product table holds product 12, "Lemon Tart" of
category `tarts`. -/
def shopWithTart : Collab :=
  { openShop with
    productByID := fun id => if id = 12 then some ("Lemon Tart", "tarts") else none }

/-- A user who is being asked for a name, with two coffees in the cart. -/
def givingName : UserState :=
  { State := "awaiting_name", Language := "en", CurrentProduct := "", CurrentEmoji := "",
    CurrentQuantity := 0, Cart := [⟨"Coffee", "☕", 2⟩], CustomerName := "",
    DeliveryType := "", Address := "" }


/-- The case labels of the `switch` of `handlePostback`, in source order. -/
def staticTokens : List String :=
  ["LANG_EN", "LANG_MY", "MENU_ORDER", "MENU_ORDER_HISTORY", "MENU_ABOUT", "MENU_CHANGE_LANG",
   "MENU_ORDER_PRODUCTS", "MENU_HELP", "GET_STARTED", "ORDER_CHOCOLATE_CAKE",
   "ORDER_VANILLA_CAKE", "ORDER_RED_VELVET", "ORDER_CROISSANT", "ORDER_CINNAMON_ROLL",
   "ORDER_CUPCAKE", "ORDER_COFFEE", "ORDER_BREAD", "ORDER_CHOCOLATE_CUPCAKE", "QTY_1", "QTY_2",
   "QTY_3", "QTY_4", "QTY_5", "ADD_MORE_ITEMS", "CHECKOUT", "GO_BACK", "MAIN_MENU", "PICKUP",
   "DELIVERY", "CONFIRM_ORDER", "CANCEL_ORDER", "QUICK_SHOP", "QUICK_SHOW_CART",
   "QUICK_CHECKOUT", "QUICK_ADD_MORE", "QUICK_CLEAR_CART", "SHOW_MENU", "RATING_1", "RATING_2",
   "RATING_3", "RATING_4", "RATING_5", "SKIP_RATING"]


/-- A cart with two coffees, one chocolate cake and a second cake line. -/
def cakeCart : List CartItem :=
  [⟨"Coffee", "☕", 2⟩, ⟨"Chocolate Cake", "🍰", 1⟩, ⟨"Chocolate Cake", "🍰", 4⟩]

/-- A user in the quick-order flow holding `cakeCart`, with the given language. -/
def quickOrdering (language : String) : UserState :=
  { State := "quick_ordering", Language := language, CurrentProduct := "", CurrentEmoji := "",
    CurrentQuantity := 0, Cart := cakeCart, CustomerName := "", DeliveryType := "",
    Address := "" }


/-! ## Webview order submission (`controllers/chat_order.go`) -/

/-- The `float64` operations used by the submission code. The code is
embedded over any carrier `F` with these operations, so that what is proved
holds for IEEE arithmetic as for exact arithmetic. `toInt` is the Go
conversion `int(x)`. -/
structure FloatOps (F : Type) where
  add : F → F → F
  mul : F → F → F
  zero : F
  ofInt : Int → F
  toInt : F → Int

/-- Exact arithmetic on whole amounts, used for sample data. -/
def wholeAmounts : FloatOps Int :=
  { add := fun a b => a + b, mul := fun a b => a * b, zero := 0, ofInt := fun n => n,
    toInt := fun a => a }

/-- One item of the request body (`controllers.ChatOrderItem`). -/
structure ChatOrderItem (F : Type) where
  ProductID : Int
  Name : String
  Qty : Int
  Price : F
  deriving DecidableEq, Repr

/-- Decoded request body (`controllers.ChatOrderRequest`). -/
structure ChatOrderRequest (F : Type) where
  UserID : String
  Items : List (ChatOrderItem F)
  Channel : String
  Notes : String
  CustomerName : String
  CustomerPhone : String
  DeliveryType : String
  Address : String
  deriving DecidableEq, Repr

/-- Row of table `orders` with the columns the `INSERT` statements write. -/
structure OrderRow (F : Type) where
  id : Int
  customer_name : String
  delivery_type : String
  address : String
  status : String
  total_items : Int
  subtotal : F
  delivery_fee : F
  total_amount : F
  sender_id : String
  reordered_from : Option Int := none
  deriving DecidableEq, Repr

/-- Row of table `order_items`. -/
structure OrderItemRow (F : Type) where
  order_id : Int
  product : String
  quantity : Int
  price : F
  deriving DecidableEq, Repr

/-- The two tables behind `configs.DB` as order submission sees them;
`connected = false` is the nil handle and `nextOrderID` the next value of the
id sequence. -/
structure ShopTables (F : Type) where
  connected : Bool
  orders : List (OrderRow F)
  order_items : List (OrderItemRow F)
  nextOrderID : Int
  deriving DecidableEq, Repr

/-- An `INSERT` statement sent to the database. -/
inductive Statement (F : Type) where
  | insertOrder (row : OrderRow F)
  | insertItem (row : OrderItemRow F)
  deriving DecidableEq, Repr

/-- Behaviour of the database during one submission: the error of the order
insert, and the error of the insert of the item at each position. -/
structure SubmitEnv where
  orderInsertErr : Option String
  itemInsertErr : Nat → Option String

/-- Everything observable of one run of `CreateChatOrder`: the tables
afterwards, the response (`none` after a panic), the statements sent to the
database in order, the messages handed to `SendMessage` and the log lines. -/
structure SubmitOutcome (F : Type) where
  tables : ShopTables F
  resp : Option Response
  statements : List (Statement F)
  sends : List (String × String)
  logs : List String

/-- Conversion `rune(x)` of a Go `int`: the low 32 bits, signed. -/
def wrapInt32 (x : Int) : Int := (x + 2 ^ 31) % 2 ^ 32 - 2 ^ 31

/-- Conversion `string(r)` of a rune: the UTF-8 text of the code point, or of
U+FFFD when `r` is no valid code point. -/
def runeString (r : Int) : String :=
  if (0 ≤ r ∧ r < 0xD800) ∨ (0xE000 ≤ r ∧ r ≤ 0x10FFFF) then
    String.singleton (Char.ofNat r.toNat)
  else "\uFFFD"

/-- The pricing loop of `CreateChatOrder`: `total` and `totalItems`. -/
def chatOrderTotals {F : Type} (fl : FloatOps F) (items : List (ChatOrderItem F)) : F × Int :=
  items.foldl (fun acc item =>
    (fl.add acc.1 (fl.mul item.Price (fl.ofInt item.Qty)), addInt acc.2 item.Qty))
    (fl.zero, 0)

/-- The item loop of `CreateChatOrder` from position `i` on: each item is
inserted on its own; a failing insert is logged and the loop goes on. Returns
the item rows stored, the statements sent and the log lines. -/
def insertChatItems {F : Type} (env : SubmitEnv) (orderID : Int) :
    List (ChatOrderItem F) → Nat → List (OrderItemRow F) × List (Statement F) × List String
  | [], _ => ([], [], [])
  | item :: rest, i =>
    let row : OrderItemRow F :=
      { order_id := orderID, product := item.Name, quantity := item.Qty, price := item.Price }
    let tail := insertChatItems env orderID rest (i + 1)
    match env.itemInsertErr i with
    | some e =>
      (tail.1, .insertItem row :: tail.2.1,
        ("⚠️  Failed to insert item " ++ item.Name ++ ": " ++ e) :: tail.2.2)
    | none => (row :: tail.1, .insertItem row :: tail.2.1, tail.2.2)

/-- The list `itemsList` of the confirmation text: the first three items. -/
def confirmationItems {F : Type} (items : List (ChatOrderItem F)) : String :=
  (items.take 3).foldl (fun acc item =>
    acc ++ item.Name ++ " × " ++ runeString (wrapInt32 (addInt item.Qty 48)) ++ "\n") ""
  ++ (if items.length > 3 then "...and more\n" else "")

/-- The confirmation text sent by the background task of `CreateChatOrder`. -/
def confirmationText {F : Type} (fl : FloatOps F) (orderID : Int)
    (items : List (ChatOrderItem F)) (total : F) : String :=
  "🎉 Order Confirmed!\n\n" ++
    "Order #" ++ runeString (wrapInt32 (addInt orderID 48)) ++ "\n" ++
    confirmationItems items ++
    "\nTotal: $" ++ runeString (wrapInt32 (fl.toInt total)) ++ "\n" ++
    "Status: ⏳ Pending\n\n" ++
    "We'll start preparing your order soon!"

/-- `controllers.CreateChatOrder`. `body` is the result of decoding the
request body. -/
def CreateChatOrder {F : Type} (fl : FloatOps F) (env : SubmitEnv) (db : ShopTables F)
    (body : Except String (ChatOrderRequest F)) : SubmitOutcome F :=
  match body with
  | .error e =>
    { tables := db, resp := some (httpError "invalid request" 400), statements := [],
      sends := [], logs := ["❌ Invalid request: " ++ e] }
  | .ok req =>
    if req.Items.length = 0 then
      { tables := db, resp := some (httpError "cart is empty" 400), statements := [],
        sends := [], logs := [] }
    else
      let log1 := "📦 Creating order for user " ++ req.UserID ++ " with " ++
        fmtInt req.Items.length ++ " items"
      let totals := chatOrderTotals fl req.Items
      let customerInfo :=
        if req.CustomerPhone ≠ "" then req.CustomerName ++ " (" ++ req.CustomerPhone ++ ")"
        else req.CustomerName
      let row : OrderRow F :=
        { id := db.nextOrderID, customer_name := customerInfo,
          delivery_type := req.DeliveryType, address := req.Address, status := "pending",
          total_items := totals.2, subtotal := totals.1, delivery_fee := fl.zero,
          total_amount := totals.1, sender_id := req.UserID }
      if !db.connected then
        { tables := db, resp := none, statements := [], sends := [], logs := [log1] }
      else
        match env.orderInsertErr with
        | some e =>
          { tables := db, resp := some (httpError "failed to create order" 500),
            statements := [.insertOrder row], sends := [],
            logs := [log1, "❌ Failed to create order: " ++ e] }
        | none =>
          let orderID := db.nextOrderID
          let items := insertChatItems env orderID req.Items 0
          { tables :=
              { db with
                orders := db.orders ++ [row]
                order_items := db.order_items ++ items.1
                nextOrderID := db.nextOrderID + 1 }
            resp := some ⟨200, .json
              [("success", .bool true), ("order_id", .int orderID),
               ("message", .str "Order placed successfully!")]⟩
            statements := .insertOrder row :: items.2.1
            sends := [(req.UserID, confirmationText fl orderID req.Items totals.1)]
            logs := log1 :: items.2.2 ++
              ["✅ Order #" ++ fmtInt orderID ++ " created successfully"] }

/-- A submission of two croissants and one coffee for delivery. -/
def deliveryRequest : ChatOrderRequest Int :=
  { UserID := "u1", Items := [⟨3, "Croissant", 2, 8⟩, ⟨7, "Coffee", 1, 5⟩], Channel := "messenger",
    Notes := "", CustomerName := "Ana", CustomerPhone := "555-0101",
    DeliveryType := "delivery", Address := "12 Mill Lane" }

/-- Empty tables of a connected database whose next order id is 1. -/
def emptyTables : ShopTables Int :=
  { connected := true, orders := [], order_items := [], nextOrderID := 1 }

/-- A database on which every insert succeeds. -/
def insertsOk : SubmitEnv := { orderInsertErr := none, itemInsertErr := fun _ => none }

/-- A user in the quick-order flow holding one chocolate cake, with the given
language. -/
def oneCake (language : String) : UserState :=
  { State := "quick_ordering", Language := language, CurrentProduct := "", CurrentEmoji := "",
    CurrentQuantity := 0, Cart := [⟨"Chocolate Cake", "🍰", 1⟩], CustomerName := "",
    DeliveryType := "", Address := "" }


/-! ## Transactional order creation (`models/order.go`) -/

/-- Behaviour of the database during one `CreateOrder`: the errors of
`Begin`, of the order insert, of the insert of the item at each position and
of `Commit`. -/
structure TxEnv where
  beginErr : Option String
  orderInsertErr : Option String
  itemInsertErr : Nat → Option String
  commitErr : Option String

/-- What `CreateOrder` leaves behind: the tables, the returned error (`none`
is nil) and the order value behind the pointer `o`, whose `id` is set by the
`Scan` of the order insert. -/
structure CreateOrderResult (F : Type) where
  tables : ShopTables F
  err : Option String
  order : OrderRow F

/-- The item loop of `CreateOrder` from position `i` on, inside the
transaction: the rows inserted, or the error of the first failing insert, at
which the function returns. -/
def txInsertItems {F : Type} (env : TxEnv) (orderID : Int) :
    List (OrderItemRow F) → Nat → Except String (List (OrderItemRow F))
  | [], _ => .ok []
  | item :: rest, i =>
    match env.itemInsertErr i with
    | some e => .error e
    | none =>
      match txInsertItems env orderID rest (i + 1) with
      | .error e => .error e
      | .ok rows =>
        .ok ({ order_id := orderID, product := item.product, quantity := item.quantity,
               price := item.price } :: rows)

/-- `models.CreateOrder`. The inserts run inside a transaction: their rows
become visible at a successful `Commit`, and the deferred `Rollback` discards
them on every earlier return and after a failing `Commit`. The id sequence is
not part of the transaction, so an id handed out stays consumed. -/
def CreateOrder {F : Type} (env : TxEnv) (db : ShopTables F) (o : OrderRow F)
    (items : List (OrderItemRow F)) : CreateOrderResult F :=
  if !db.connected then
    { tables := db, err := some "sql: connection is already closed", order := o }
  else
    match env.beginErr with
    | some e => { tables := db, err := some e, order := o }
    | none =>
      match env.orderInsertErr with
      | some e => { tables := db, err := some e, order := o }
      | none =>
        let o1 : OrderRow F := { o with id := db.nextOrderID }
        let rolledBack : ShopTables F := { db with nextOrderID := db.nextOrderID + 1 }
        match txInsertItems env o1.id items 0 with
        | .error e => { tables := rolledBack, err := some e, order := o1 }
        | .ok rows =>
          match env.commitErr with
          | some e => { tables := rolledBack, err := some e, order := o1 }
          | none =>
            { tables :=
                { rolledBack with
                  orders := db.orders ++ [o1]
                  order_items := db.order_items ++ rows }
              err := none, order := o1 }

/-- A database on which the insert of the second item fails. -/
def secondItemFails : SubmitEnv :=
  { orderInsertErr := none,
    itemInsertErr := fun i => if i = 1 then some "pq: connection reset" else none }


/-- A shop that is closed: the gate tells the user so and reports `false`. -/
def closedShop : Collab :=
  { openShop with
    checkBusinessHours := fun userID w =>
      (false, w.emit (.message userID "Sorry, we are closed right now.")) }

/-- The conversation after a list of button payloads from one user. -/
def runPostbacks (c : Collab) (userID : String) (payloads : List String) (w : World) : World :=
  payloads.foldl (fun w payload => handlePostback c userID payload w) w

/-- A user who is browsing the products with an empty cart. -/
def browsing : UserState :=
  { State := "awaiting_product", Language := "en", CurrentProduct := "", CurrentEmoji := "",
    CurrentQuantity := 0, Cart := [], CustomerName := "", DeliveryType := "", Address := "" }


/-- Tables of a connected database with no rows whose next order id is 12. -/
def tablesAt12 : ShopTables Int :=
  { connected := true, orders := [], order_items := [], nextOrderID := 12 }

/-- A submission of thirteen coffees at 5 for pickup. -/
def thirteenCoffees : ChatOrderRequest Int :=
  { UserID := "u1", Items := [⟨7, "Coffee", 13, 5⟩], Channel := "messenger", Notes := "",
    CustomerName := "Ana", CustomerPhone := "", DeliveryType := "pickup",
    Address := "Pickup at store" }


/-! ## Product validation and listing (`models/product.go`, `controllers/product_controller.go`) -/

/-- Product row (`models.Product`), without the timestamps. `Price` is a
`float64`, kept abstract. -/
structure models.Product (F : Type) where
  ID : Int
  Name : String
  Description : String
  Category : String
  Price : F
  Stock : Int
  ImageURL : String
  Status : String
  deriving DecidableEq, Repr

/-- `(*Product).Validate`: the error text, or `none` for nil. `isNegative` is
the `float64` comparison `x < 0`; `len(p.Name)` counts bytes. -/
def models.Product.Validate {F : Type} (isNegative : F → Bool) (p : models.Product F) :
    Option String :=
  if p.Name = "" then some "product name is required"
  else if p.Name.utf8ByteSize > 255 then some "product name must be less than 255 characters"
  else if p.Category = "" then some "product category is required"
  else if isNegative p.Price then some "product price cannot be negative"
  else if p.Stock < 0 then some "product stock cannot be negative"
  else if p.Status ≠ "" ∧ p.Status ≠ "draft" ∧ p.Status ≠ "active" ∧ p.Status ≠ "inactive" ∧
      p.Status ≠ "archived" then some "invalid product status"
  else none

/-- A valid cake product with the given name, priced in whole amounts. -/
def cakeNamed (name : String) : models.Product Int :=
  { ID := 1, Name := name, Description := "", Category := "cakes", Price := 25, Stock := 3,
    ImageURL := "", Status := "active" }

/-- The query parameters `GetProducts` reads from the URL. -/
structure ProductQueryParams where
  category : String
  status : String
  search : String
  min_price : String
  max_price : String
  limit : String
  offset : String
  sort_by : String
  sort_dir : String
  deriving DecidableEq, Repr

/-- Value bound to a placeholder of the query. -/
inductive SqlArg (F : Type) where
  | text (s : String)
  | number (x : F)
  | int (n : Int)
  deriving DecidableEq, Repr

/-- The variables `query`, `args` and `argNum` of `GetProducts`. -/
structure QueryBuild (F : Type) where
  query : String
  args : List (SqlArg F)
  argNum : Int

/-- The initial value of `query` in `GetProducts`. -/
def productsBaseQuery : String :=
    "\n" ++
    "\t\tSELECT p.id, p.name, p.description, p.category, p.price, p.stock, \n" ++
    "\t\t       p.image_url, p.status, p.created_at, p.updated_at,\n" ++
    "\t\t       COALESCE(pa.views, 0) as views, COALESCE(pa.purchases, 0) as purchases\n" ++
    "\t\tFROM products p\n" ++
    "\t\tLEFT JOIN product_analytics pa ON p.id = pa.product_id\n" ++
    "\t\tWHERE p.deleted_at IS NULL\n" ++
    "\t"

/-- Map `validSortFields` of `GetProducts`. -/
def validSortFields : List (String × Bool) :=
  [("name", true), ("price", true), ("stock", true), ("created_at", true), ("views", true),
   ("purchases", true)]

/-- The text `GetProducts` appends for sorting: `sortBy` and `sortDir` after
their fallbacks, formatted with `" ORDER BY %s %s"`. -/
def sortClause (sortBy sortDir : String) : String :=
  let sortBy := if sortBy = "" then "created_at" else sortBy
  let sortBy := if !(validSortFields.lookup sortBy).getD false then "created_at" else sortBy
  let sortDir := if sortDir ≠ "ASC" ∧ sortDir ≠ "DESC" then "DESC" else sortDir
  " ORDER BY " ++ sortBy ++ " " ++ sortDir

/-- One applied filter: its clause, numbered with `argNum`, is appended to
the query, its value to `args`, and `argNum` is incremented. -/
def addFilter {F : Type} (b : QueryBuild F) (clause : Int → String) (arg : SqlArg F) :
    QueryBuild F :=
  { query := b.query ++ clause b.argNum, args := b.args ++ [arg], argNum := addInt b.argNum 1 }

/-- The query text and arguments `GetProducts` passes to `pc.DB.Query`.
`parseFloat` is `strconv.ParseFloat(s, 64)`, `none` for an error. -/
def productsQuery {F : Type} (parseFloat : String → Option F) (q : ProductQueryParams) :
    String × List (SqlArg F) :=
  let b : QueryBuild F := { query := productsBaseQuery, args := [], argNum := 1 }
  let b := if q.category ≠ "" then
      addFilter b (fun n => " AND p.category = $" ++ fmtInt n) (.text q.category) else b
  let b := if q.status ≠ "" then
      addFilter b (fun n => " AND p.status = $" ++ fmtInt n) (.text q.status) else b
  let b := if q.search ≠ "" then
      addFilter b (fun n => " AND (p.name ILIKE $" ++ fmtInt n ++ " OR p.description ILIKE $" ++
        fmtInt n ++ ")") (.text ("%" ++ q.search ++ "%")) else b
  let b := if q.min_price ≠ "" then
      match parseFloat q.min_price with
      | some minPrice => addFilter b (fun n => " AND p.price >= $" ++ fmtInt n) (.number minPrice)
      | none => b
    else b
  let b := if q.max_price ≠ "" then
      match parseFloat q.max_price with
      | some maxPrice => addFilter b (fun n => " AND p.price <= $" ++ fmtInt n) (.number maxPrice)
      | none => b
    else b
  let query := b.query ++ sortClause q.sort_by q.sort_dir
  let limit : Int :=
    if q.limit ≠ "" then
      match Atoi q.limit with
      | some l => if l > 0 ∧ l ≤ 100 then l else 50
      | none => 50
    else 50
  let offset : Int :=
    if q.offset ≠ "" then
      match Atoi q.offset with
      | some o => if o ≥ 0 then o else 0
      | none => 0
    else 0
  (query ++ " LIMIT $" ++ fmtInt b.argNum ++ " OFFSET $" ++ fmtInt (addInt b.argNum 1),
    b.args ++ [.int limit, .int offset])

/-- The sort fields of the whitelist. -/
def sortFields : List String := ["name", "price", "stock", "created_at", "views", "purchases"]

/-- One clause of the query text, numbered by the running placeholder number. -/
def addClause (t : String × Int) (clause : Int → String) : String × Int :=
  (t.1 ++ clause t.2, addInt t.2 1)

/-- The shape of the query text of `GetProducts`, written from which filters
apply and the sort field and direction only. -/
def productsQueryText (hasCategory hasStatus hasSearch hasMin hasMax : Bool)
    (field dir : String) : String :=
  let t : String × Int := (productsBaseQuery, 1)
  let t := if hasCategory then addClause t (fun n => " AND p.category = $" ++ fmtInt n) else t
  let t := if hasStatus then addClause t (fun n => " AND p.status = $" ++ fmtInt n) else t
  let t := if hasSearch then
      addClause t (fun n => " AND (p.name ILIKE $" ++ fmtInt n ++ " OR p.description ILIKE $" ++
        fmtInt n ++ ")") else t
  let t := if hasMin then addClause t (fun n => " AND p.price >= $" ++ fmtInt n) else t
  let t := if hasMax then addClause t (fun n => " AND p.price <= $" ++ fmtInt n) else t
  t.1 ++ (" ORDER BY " ++ field ++ " " ++ dir) ++ " LIMIT $" ++ fmtInt t.2 ++ " OFFSET $" ++
    fmtInt (addInt t.2 1)


/-- A transaction in which every step succeeds. -/
def txOk : TxEnv :=
  { beginErr := none, orderInsertErr := none, itemInsertErr := fun _ => none, commitErr := none }

/-- A transaction in which the insert of the second item fails. -/
def txSecondItemFails : TxEnv :=
  { txOk with itemInsertErr := fun i => if i = 1 then some "pq: connection reset" else none }

/-- The order of Ana for delivery, as handed to `CreateOrder`. -/
def anaOrder : OrderRow Int :=
  { id := 0, customer_name := "Ana", delivery_type := "delivery", address := "12 Mill Lane",
    status := "pending", total_items := 3, subtotal := 21, delivery_fee := 4,
    total_amount := 25, sender_id := "u1" }

/-- The two item lines of `anaOrder`. -/
def anaItems : List (OrderItemRow Int) := [⟨0, "Croissant", 2, 8⟩, ⟨0, "Coffee", 1, 5⟩]


/-! ## Order-status workflow: lemmas -/

theorem lookup_allowedNext_of_forward {c n : String} (h : (c, n) ∈ forwardSteps) :
    allowedNext.lookup c = some n ∧ n ≠ "" ∧ c ≠ n := by
  simp only [forwardSteps, List.mem_cons, Prod.mk.injEq, List.mem_singleton,
    List.not_mem_nil, or_false] at h
  rcases h with ⟨rfl, rfl⟩ | ⟨rfl, rfl⟩ | ⟨rfl, rfl⟩ <;> decide

theorem valid_of_forward {c n : String} (h : (c, n) ∈ forwardSteps) :
    (validStatuses.lookup n).getD false = true := by
  simp only [forwardSteps, List.mem_cons, Prod.mk.injEq, List.mem_singleton,
    List.not_mem_nil, or_false] at h
  rcases h with ⟨rfl, rfl⟩ | ⟨rfl, rfl⟩ | ⟨rfl, rfl⟩ <;> decide

theorem valid_of_mem_workflow {s : String} (h : s ∈ workflowStatuses) :
    (validStatuses.lookup s).getD false = true := by
  simp only [workflowStatuses, List.mem_cons, List.mem_singleton, List.not_mem_nil,
    or_false] at h
  rcases h with rfl | rfl | rfl | rfl <;> decide

/-- The handler on a well-formed request whose order loads: only the
transition check remains. -/
theorem admin_loaded (env : Env) (db : DB) (r : Request) (orderID : Int) (status : String)
    (o : Order) (hm : r.Method ≠ "OPTIONS") (hid : Atoi r.id = some orderID)
    (hs : r.Status = some status) (hv : (validStatuses.lookup status).getD false = true)
    (hload : GetOrderByID env db orderID = .ok o) (next : String)
    (hn : allowedNext.lookup o.Status = some next) :
    AdminUpdateOrderStatus env db r =
      if next = "" then
        { db := db, resp := some ⟨200, .json
            [("success", .bool true), ("duplicate", .bool true),
             ("order_id", .int orderID), ("status", .str o.Status),
             ("message", .str "Order already delivered")]⟩,
          writes := [], sends := [], logs := [] }
      else if status ≠ next then
        { db := db, resp := some (httpError
            ("Invalid transition: " ++ o.Status ++ " -> " ++ status) 400),
          writes := [], sends := [], logs := [] }
      else if o.Status = status then
        { db := db, resp := some ⟨200, .json
            [("success", .bool true), ("duplicate", .bool true),
             ("order_id", .int orderID), ("status", .str o.Status),
             ("message", .str "Status unchanged")]⟩,
          writes := [], sends := [], logs := [] }
      else
        match UpdateOrderStatus env db orderID status with
        | (db1, some e) =>
          { db := db1, resp := some (httpError "Error updating order status" 500),
            writes := [(orderID, status)], sends := [],
            logs := ["❌ Error updating order status: " ++ e] }
        | (db1, none) =>
          { db := db1,
            resp := some ⟨200, .json
              [("success", .bool true), ("order_id", .int orderID),
               ("new_status", .str status), ("message", .str "Order status updated"),
               ("notification_dispatched", .bool (o.SenderID != ""))]⟩,
            writes := [(orderID, status)],
            sends := if o.SenderID != "" then (notifyTask env orderID o.SenderID status).1
              else [],
            logs := ("✅ Order #" ++ fmtInt orderID ++ " status updated to: " ++ status) ::
              (if o.SenderID != "" then (notifyTask env orderID o.SenderID status).2
               else ["ℹ️ No SenderID for order #" ++ fmtInt orderID ++
                  "; skipping async notification"]) } := by
  simp only [AdminUpdateOrderStatus, hm, hid, hs, hv, hload, hn, if_false, Bool.not_true,
    Bool.false_eq_true]
  split_ifs <;> rfl

theorem getOrder_ok_iff {env : Env} {db : DB} {id : Int} {o : Order} :
    GetOrderByID env db id = .ok o ↔
      db.connected = true ∧ env.queryErr = none ∧ storedOrder db id = some o := by
  unfold GetOrderByID storedOrder
  cases db.connected <;> cases env.queryErr <;>
    cases db.orders.find? (fun o => o.ID == id) <;> simp

theorem id_of_stored {db : DB} {id : Int} {o : Order} (h : storedOrder db id = some o) :
    o.ID = id := by
  have := List.find?_some h
  simpa using this

theorem setStatusWhere_ID (orderID : Int) (status : String) (o : Order) :
    (setStatusWhere orderID status o).ID = o.ID := by
  unfold setStatusWhere
  split_ifs <;> rfl

/-- Reading a row back after the `UPDATE` of `UpdateOrderStatus`. -/
theorem stored_after_update (rows : List Order) (id orderID : Int) (status : String) :
    (rows.map (setStatusWhere orderID status)).find? (fun o => o.ID == id) =
      (rows.find? (fun o => o.ID == id)).map (setStatusWhere orderID status) := by
  induction rows with
  | nil => rfl
  | cons a t ih =>
    simp only [List.map_cons, List.find?_cons, setStatusWhere_ID]
    cases a.ID == id
    · simpa using ih
    · rfl


/-! ## Order-status workflow: claims -/

/-- C1 (evaluation at the failing input). Re-applying the current status
`pending` to order 7 is not acknowledged as a duplicate: the transition check
runs first and answers `400 Invalid transition: pending -> pending`; the
duplicate branch that follows it is never reached. Nothing is written. -/
theorem C1_reapply_pending_rejected :
    AdminUpdateOrderStatus envOk ⟨true, [sampleOrder 7 "pending" "psid-1"]⟩
        (putStatus "7" "pending") =
      { db := ⟨true, [sampleOrder 7 "pending" "psid-1"]⟩,
        resp := some (httpError "Invalid transition: pending -> pending" 400),
        writes := [], sends := [], logs := [] } := by
  decide

/-- C2 (counterexample). For the delivered order 7 the regression request
`delivered -> ready` is answered `200` with `success` and `duplicate` set and
the message "Order already delivered"; the answer is no error response. -/
theorem C2_delivered_regression_acknowledged :
    "ready" ∈ workflowStatuses ∧ "ready" ≠ "delivered" ∧
    allowedNext.lookup "delivered" ≠ some "ready" ∧
    (AdminUpdateOrderStatus envOk ⟨true, [sampleOrder 7 "delivered" "psid-1"]⟩
        (putStatus "7" "ready")).resp =
      some ⟨200, .json [("success", .bool true), ("duplicate", .bool true),
        ("order_id", .int 7), ("status", .str "delivered"),
        ("message", .str "Order already delivered")]⟩ ∧
    (AdminUpdateOrderStatus envOk ⟨true, [sampleOrder 7 "delivered" "psid-1"]⟩
        (putStatus "7" "ready")).resp ≠
      some (httpError "Invalid transition: delivered -> ready" 400) := by
  decide

/-- C2 (amended). For a loaded order with current status `c` and a requested
status `r` of the workflow with `r ≠ c` and `r` not the allowed next status of
`c`: nothing is written and the store is unchanged; when `c` is `pending`,
`preparing` or `ready` the answer is `400 Invalid transition: c -> r`; when
`c` is `delivered` the answer is the "Order already delivered"
acknowledgement. -/
theorem C2_skip_or_regression_leaves_order (env : Env) (db : DB) (r : Request)
    (orderID : Int) (status : String) (o : Order)
    (hm : r.Method ≠ "OPTIONS") (hid : Atoi r.id = some orderID)
    (hs : r.Status = some status) (hload : GetOrderByID env db orderID = .ok o)
    (hc : o.Status ∈ workflowStatuses) (hr : status ∈ workflowStatuses)
    (_hne : status ≠ o.Status) (hnext : allowedNext.lookup o.Status ≠ some status) :
    (AdminUpdateOrderStatus env db r).db = db ∧
    (AdminUpdateOrderStatus env db r).writes = [] ∧
    (AdminUpdateOrderStatus env db r).sends = [] ∧
    (o.Status ∈ ["pending", "preparing", "ready"] →
      (AdminUpdateOrderStatus env db r).resp =
        some (httpError ("Invalid transition: " ++ o.Status ++ " -> " ++ status) 400)) ∧
    (o.Status = "delivered" →
      (AdminUpdateOrderStatus env db r).resp =
        some ⟨200, .json [("success", .bool true), ("duplicate", .bool true),
          ("order_id", .int orderID), ("status", .str "delivered"),
          ("message", .str "Order already delivered")]⟩) := by
  have hv := valid_of_mem_workflow hr
  simp only [workflowStatuses, List.mem_cons, List.mem_singleton, List.not_mem_nil,
    or_false] at hc
  rcases hc with h | h | h | h
  · have hn : allowedNext.lookup o.Status = some "preparing" := by rw [h]; decide
    have hsn : status ≠ "preparing" := fun e => hnext (by rw [hn, e])
    rw [admin_loaded env db r orderID status o hm hid hs hv hload _ hn]
    simp [hsn, h]
  · have hn : allowedNext.lookup o.Status = some "ready" := by rw [h]; decide
    have hsn : status ≠ "ready" := fun e => hnext (by rw [hn, e])
    rw [admin_loaded env db r orderID status o hm hid hs hv hload _ hn]
    simp [hsn, h]
  · have hn : allowedNext.lookup o.Status = some "delivered" := by rw [h]; decide
    have hsn : status ≠ "delivered" := fun e => hnext (by rw [hn, e])
    rw [admin_loaded env db r orderID status o hm hid hs hv hload _ hn]
    simp [hsn, h]
  · have hn : allowedNext.lookup o.Status = some "" := by rw [h]; decide
    rw [admin_loaded env db r orderID status o hm hid hs hv hload _ hn]
    simp [h]

/-- Witness of C2 (amended): the skip `pending -> ready` on order 7. -/
theorem C2_skip_or_regression_leaves_order_witness :
    (AdminUpdateOrderStatus envOk ⟨true, [sampleOrder 7 "pending" "psid-1"]⟩
        (putStatus "7" "ready")).db = ⟨true, [sampleOrder 7 "pending" "psid-1"]⟩ ∧
    (AdminUpdateOrderStatus envOk ⟨true, [sampleOrder 7 "pending" "psid-1"]⟩
        (putStatus "7" "ready")).resp =
      some (httpError "Invalid transition: pending -> ready" 400) :=
  have h := C2_skip_or_regression_leaves_order envOk ⟨true, [sampleOrder 7 "pending" "psid-1"]⟩
    (putStatus "7" "ready") 7 "ready" (sampleOrder 7 "pending" "psid-1")
    (by decide) (by decide) rfl (by decide) (by decide) (by decide) (by decide) (by decide)
  ⟨h.1, h.2.2.2.1 (by decide)⟩


/-- The handler on a valid forward transition whose `UPDATE` succeeds. -/
theorem admin_forward (env : Env) (db : DB) (r : Request) (orderID : Int) (status : String)
    (o : Order) (hm : r.Method ≠ "OPTIONS") (hid : Atoi r.id = some orderID)
    (hs : r.Status = some status) (hload : GetOrderByID env db orderID = .ok o)
    (hstep : (o.Status, status) ∈ forwardSteps) (hexec : env.execErr = none) :
    AdminUpdateOrderStatus env db r =
      { db := { db with orders := db.orders.map (setStatusWhere orderID status) },
        resp := some ⟨200, .json
          [("success", .bool true), ("order_id", .int orderID),
           ("new_status", .str status), ("message", .str "Order status updated"),
           ("notification_dispatched", .bool (o.SenderID != ""))]⟩,
        writes := [(orderID, status)],
        sends := if o.SenderID != "" then (notifyTask env orderID o.SenderID status).1 else [],
        logs := ("✅ Order #" ++ fmtInt orderID ++ " status updated to: " ++ status) ::
          (if o.SenderID != "" then (notifyTask env orderID o.SenderID status).2
           else ["ℹ️ No SenderID for order #" ++ fmtInt orderID ++
              "; skipping async notification"]) } := by
  obtain ⟨hn, hne, hcs⟩ := lookup_allowedNext_of_forward hstep
  have hconn : db.connected = true := (getOrder_ok_iff.mp hload).1
  rw [admin_loaded env db r orderID status o hm hid hs (valid_of_forward hstep) hload _ hn]
  simp [hne, hcs, UpdateOrderStatus, hconn, hexec]

/-- C3. For an existing order whose status is `pending`, `preparing` or
`ready`, a request for the single allowed next status whose store write
succeeds issues exactly one `UPDATE` for that order id, after which the order
reads back with the requested status and every other field as before, rows of
other ids are untouched, and the answer is `200` with `success` and
`new_status` equal to the requested status. -/
theorem C3_forward_transition_persists (env : Env) (db : DB) (r : Request)
    (orderID : Int) (status : String) (o : Order)
    (hm : r.Method ≠ "OPTIONS") (hid : Atoi r.id = some orderID)
    (hs : r.Status = some status) (hload : GetOrderByID env db orderID = .ok o)
    (hstep : (o.Status, status) ∈ forwardSteps) (hexec : env.execErr = none) :
    (AdminUpdateOrderStatus env db r).writes = [(orderID, status)] ∧
    GetOrderByID env (AdminUpdateOrderStatus env db r).db orderID =
      .ok { o with Status := status } ∧
    (∀ id, id ≠ orderID →
      storedOrder (AdminUpdateOrderStatus env db r).db id = storedOrder db id) ∧
    (AdminUpdateOrderStatus env db r).resp =
      some ⟨200, .json
        [("success", .bool true), ("order_id", .int orderID),
         ("new_status", .str status), ("message", .str "Order status updated"),
         ("notification_dispatched", .bool (o.SenderID != ""))]⟩ := by
  rw [admin_forward env db r orderID status o hm hid hs hload hstep hexec]
  obtain ⟨hconn, hq, hst⟩ := getOrder_ok_iff.mp hload
  have hoid : o.ID = orderID := id_of_stored hst
  refine ⟨rfl, ?_, ?_, rfl⟩
  · rw [getOrder_ok_iff]
    refine ⟨hconn, hq, ?_⟩
    unfold storedOrder at hst ⊢
    simp only [stored_after_update, hst, Option.map_some', setStatusWhere, hoid, beq_self_eq_true,
      if_true]
  · intro id hid2
    unfold storedOrder
    simp only [stored_after_update]
    cases hf : db.orders.find? (fun o => o.ID == id) with
    | none => rfl
    | some o2 =>
      have h2 : o2.ID = id := id_of_stored hf
      have : (o2.ID == orderID) = false := by simpa [h2] using hid2
      simp [setStatusWhere, this]

/-- Witness of C3: `pending -> preparing` on order 7. -/
theorem C3_forward_transition_persists_witness :
    (AdminUpdateOrderStatus envOk ⟨true, [sampleOrder 7 "pending" "psid-1"]⟩
        (putStatus "7" "preparing")).writes = [(7, "preparing")] ∧
    GetOrderByID envOk (AdminUpdateOrderStatus envOk ⟨true, [sampleOrder 7 "pending" "psid-1"]⟩
        (putStatus "7" "preparing")).db 7 = .ok (sampleOrder 7 "preparing" "psid-1") :=
  have h := C3_forward_transition_persists envOk ⟨true, [sampleOrder 7 "pending" "psid-1"]⟩
    (putStatus "7" "preparing") 7 "preparing" (sampleOrder 7 "pending" "psid-1")
    (by decide) (by decide) rfl (by decide) (by decide) rfl
  ⟨h.1, h.2.1⟩


theorem forward_of_lookup {c n : String} (h : allowedNext.lookup c = some n) (hn : n ≠ "") :
    (c, n) ∈ forwardSteps := by
  by_cases h1 : c = "pending"
  · subst h1; have : n = "preparing" := by simpa [allowedNext, List.lookup] using h.symm
    subst this; decide
  by_cases h2 : c = "preparing"
  · subst h2; have : n = "ready" := by simpa [allowedNext, List.lookup] using h.symm
    subst this; decide
  by_cases h3 : c = "ready"
  · subst h3; have : n = "delivered" := by simpa [allowedNext, List.lookup] using h.symm
    subst this; decide
  by_cases h4 : c = "delivered"
  · subst h4; have : n = "" := by simpa [allowedNext, List.lookup] using h.symm
    exact absurd this hn
  · have hb1 : (c == "pending") = false := by simpa using h1
    have hb2 : (c == "preparing") = false := by simpa using h2
    have hb3 : (c == "ready") = false := by simpa using h3
    have hb4 : (c == "delivered") = false := by simpa using h4
    simp [allowedNext, List.lookup, hb1, hb2, hb3, hb4] at h

theorem update_cases (env : Env) (db : DB) (id : Int) (s : String) :
    (∃ e, UpdateOrderStatus env db id s = (db, some e)) ∨
    UpdateOrderStatus env db id s =
      ({ db with orders := db.orders.map (setStatusWhere id s) }, none) := by
  unfold UpdateOrderStatus
  cases db.connected <;> cases env.execErr <;> simp

/-- The store after any request is the store before it, or the store with one
forward step applied to the rows of the requested order id. -/
theorem admin_db_cases (env : Env) (db : DB) (r : Request) :
    (AdminUpdateOrderStatus env db r).db = db ∨
    ∃ orderID cur status, storedOrder db orderID = some cur ∧
      (cur.Status, status) ∈ forwardSteps ∧
      (AdminUpdateOrderStatus env db r).db =
        { db with orders := db.orders.map (setStatusWhere orderID status) } := by
  by_cases hm : r.Method = "OPTIONS"
  · left; simp [AdminUpdateOrderStatus, hm]
  cases hid : Atoi r.id with
  | none => left; simp [AdminUpdateOrderStatus, hm, hid]
  | some orderID =>
  cases hs : r.Status with
  | none => left; simp [AdminUpdateOrderStatus, hm, hid, hs]
  | some status =>
  by_cases hv : (validStatuses.lookup status).getD false = true
  swap
  · left; simp [AdminUpdateOrderStatus, hm, hid, hs, hv]
  cases hload : GetOrderByID env db orderID with
  | panicked msg => left; simp [AdminUpdateOrderStatus, hm, hid, hs, hv, hload]
  | err e => left; simp [AdminUpdateOrderStatus, hm, hid, hs, hv, hload]
  | ok o =>
  cases hn : allowedNext.lookup o.Status with
  | none => left; simp [AdminUpdateOrderStatus, hm, hid, hs, hv, hload, hn]
  | some next =>
  rw [admin_loaded env db r orderID status o hm hid hs hv hload next hn]
  by_cases h1 : next = ""
  · left; rw [if_pos h1]
  by_cases h2 : status = next
  swap
  · left; rw [if_neg h1, if_pos h2]
  by_cases h3 : o.Status = status
  · left; rw [if_neg h1, if_neg (not_not.mpr h2), if_pos h3]
  rw [if_neg h1, if_neg (not_not.mpr h2), if_neg h3]
  rcases update_cases env db orderID status with ⟨e, he⟩ | he
  · left; rw [he]
  · right
    exact ⟨orderID, o, status, (getOrder_ok_iff.mp hload).2.2,
      forward_of_lookup (h2 ▸ hn) (h2 ▸ h1), by rw [he]⟩


theorem forward_rank {c n : String} (h : (c, n) ∈ forwardSteps) :
    n ∈ workflowStatuses ∧ statusRank n = statusRank c + 1 := by
  simp only [forwardSteps, List.mem_cons, Prod.mk.injEq, List.mem_singleton,
    List.not_mem_nil, or_false] at h
  rcases h with ⟨rfl, rfl⟩ | ⟨rfl, rfl⟩ | ⟨rfl, rfl⟩ <;> decide

/-- One request moves the stored status of any order by at most one forward
step and changes no other column of the row. -/
theorem admin_step (env : Env) (db : DB) (r : Request) (id : Int) (o : Order)
    (hst : storedOrder db id = some o) :
    ∃ o2, storedOrder (AdminUpdateOrderStatus env db r).db id = some o2 ∧
      o2 = { o with Status := o2.Status } ∧
      (o2.Status = o.Status ∨ (o.Status, o2.Status) ∈ forwardSteps) := by
  rcases admin_db_cases env db r with h | ⟨orderID, cur, status, hcur, hstep, h⟩
  · exact ⟨o, by rw [h]; exact hst, rfl, Or.inl rfl⟩
  · rw [h]
    have hnew : storedOrder { db with orders := db.orders.map (setStatusWhere orderID status) } id
        = some (setStatusWhere orderID status o) := by
      unfold storedOrder at hst ⊢
      simp only [stored_after_update, hst, Option.map_some']
    refine ⟨setStatusWhere orderID status o, hnew, ?_, ?_⟩
    · unfold setStatusWhere; split_ifs <;> rfl
    · by_cases hio : o.ID = orderID
      · have hid : id = orderID := (id_of_stored hst).symm.trans hio
        have hoc : o = cur := by
          rw [hid] at hst
          exact Option.some.inj (hst.symm.trans hcur)
        right
        simp only [setStatusWhere, hio, beq_self_eq_true, if_true]
        exact hoc ▸ hstep
      · left
        simp [setStatusWhere, hio]

/-- After any sequence of requests the order is still stored, its status is
one of the four workflow statuses and is not earlier in the chain. -/
theorem runRequests_forward (calls : List (Env × Request)) :
    ∀ (db : DB) (id : Int) (o : Order), storedOrder db id = some o →
      o.Status ∈ workflowStatuses →
      ∃ o1, storedOrder (runRequests db calls) id = some o1 ∧
        o1.Status ∈ workflowStatuses ∧ statusRank o.Status ≤ statusRank o1.Status := by
  induction calls with
  | nil => intro db id o hst hc; exact ⟨o, hst, hc, le_refl _⟩
  | cons c t ih =>
    intro db id o hst hc
    obtain ⟨o2, h2, _, hrel⟩ := admin_step c.1 db c.2 id o hst
    have hc2 : o2.Status ∈ workflowStatuses ∧ statusRank o.Status ≤ statusRank o2.Status := by
      rcases hrel with h | h
      · rw [h]; exact ⟨hc, le_refl _⟩
      · have := forward_rank h
        exact ⟨this.1, by omega⟩
    obtain ⟨o1, h1, hw, hr⟩ := ih _ id o2 h2 hc2.1
    exact ⟨o1, by simpa [runRequests] using h1, hw, le_trans hc2.2 hr⟩

/-- C4. Forward-only invariant. Take a stored order whose status is one of
`pending`, `preparing`, `ready`, `delivered`, any sequence of requests served
before, and any further request (any method, id and status string, any
collaborator behaviour). After the sequence the order is still stored with a
status `s1` among the four that is not earlier in the chain than the initial
one; after the further request its status is `s1` again or the immediate
successor of `s1`. -/
theorem C4_status_forward_only (db : DB) (id : Int) (o : Order)
    (calls : List (Env × Request)) (env : Env) (r : Request)
    (hst : storedOrder db id = some o) (hc : o.Status ∈ workflowStatuses) :
    ∃ o1 o2, storedOrder (runRequests db calls) id = some o1 ∧
      storedOrder (AdminUpdateOrderStatus env (runRequests db calls) r).db id = some o2 ∧
      o1.Status ∈ workflowStatuses ∧ statusRank o.Status ≤ statusRank o1.Status ∧
      (o2.Status = o1.Status ∨ (o1.Status, o2.Status) ∈ forwardSteps) := by
  obtain ⟨o1, h1, hw, hr⟩ := runRequests_forward calls db id o hst hc
  obtain ⟨o2, h2, _, hrel⟩ := admin_step env (runRequests db calls) r id o1 h1
  exact ⟨o1, o2, h1, h2, hw, hr, hrel⟩

/-- Witness of C4: order 7 starts `pending`, is moved to `preparing`, then a
skip to `delivered` is requested. -/
theorem C4_status_forward_only_witness :
    ∃ o1 o2,
      storedOrder (runRequests ⟨true, [sampleOrder 7 "pending" "psid-1"]⟩
        [(envOk, putStatus "7" "preparing")]) 7 = some o1 ∧
      storedOrder (AdminUpdateOrderStatus envOk
        (runRequests ⟨true, [sampleOrder 7 "pending" "psid-1"]⟩
          [(envOk, putStatus "7" "preparing")]) (putStatus "7" "delivered")).db 7 = some o2 ∧
      o1.Status ∈ workflowStatuses ∧
      statusRank (sampleOrder 7 "pending" "psid-1").Status ≤ statusRank o1.Status ∧
      (o2.Status = o1.Status ∨ (o1.Status, o2.Status) ∈ forwardSteps) :=
  C4_status_forward_only ⟨true, [sampleOrder 7 "pending" "psid-1"]⟩ 7
    (sampleOrder 7 "pending" "psid-1") [(envOk, putStatus "7" "preparing")] envOk
    (putStatus "7" "delivered") (by decide) (by decide)


/-- C5. For a loaded order whose status is `delivered`, the request for
`delivered` is answered `200` with `success`, `duplicate = true`,
`status = delivered` and the message "Order already delivered"; no `UPDATE` is
issued, nothing is sent and the store is unchanged. -/
theorem C5_already_delivered_ack (env : Env) (db : DB) (r : Request) (orderID : Int)
    (o : Order) (hm : r.Method ≠ "OPTIONS") (hid : Atoi r.id = some orderID)
    (hs : r.Status = some "delivered") (hload : GetOrderByID env db orderID = .ok o)
    (hd : o.Status = "delivered") :
    AdminUpdateOrderStatus env db r =
      { db := db,
        resp := some ⟨200, .json [("success", .bool true), ("duplicate", .bool true),
          ("order_id", .int orderID), ("status", .str "delivered"),
          ("message", .str "Order already delivered")]⟩,
        writes := [], sends := [], logs := [] } := by
  have hn : allowedNext.lookup o.Status = some "" := by rw [hd]; decide
  rw [admin_loaded env db r orderID "delivered" o hm hid hs (by decide) hload _ hn, hd]
  rfl

/-- Witness of C5: order 7 is delivered and `delivered` is requested again. -/
theorem C5_already_delivered_ack_witness :
    AdminUpdateOrderStatus envOk ⟨true, [sampleOrder 7 "delivered" "psid-1"]⟩
        (putStatus "7" "delivered") =
      { db := ⟨true, [sampleOrder 7 "delivered" "psid-1"]⟩,
        resp := some ⟨200, .json [("success", .bool true), ("duplicate", .bool true),
          ("order_id", .int 7), ("status", .str "delivered"),
          ("message", .str "Order already delivered")]⟩,
        writes := [], sends := [], logs := [] } :=
  C5_already_delivered_ack envOk ⟨true, [sampleOrder 7 "delivered" "psid-1"]⟩
    (putStatus "7" "delivered") 7 (sampleOrder 7 "delivered" "psid-1")
    (by decide) (by decide) rfl (by decide) rfl

/-- C6. When loading the order fails (no row with that id, or the query
itself fails) and the requested status is one of the four, the answer is
`404 Order not found`, no `UPDATE` is issued, no notification is sent and the
store is unchanged. -/
theorem C6_missing_order_not_found (env : Env) (db : DB) (r : Request) (orderID : Int)
    (status e : String) (hm : r.Method ≠ "OPTIONS") (hid : Atoi r.id = some orderID)
    (hs : r.Status = some status) (hr : status ∈ workflowStatuses)
    (hload : GetOrderByID env db orderID = .err e) :
    (AdminUpdateOrderStatus env db r).resp = some (httpError "Order not found" 404) ∧
    (AdminUpdateOrderStatus env db r).resp = some ⟨404, .text "Order not found\n"⟩ ∧
    (AdminUpdateOrderStatus env db r).writes = [] ∧
    (AdminUpdateOrderStatus env db r).sends = [] ∧
    (AdminUpdateOrderStatus env db r).db = db := by
  have hv := valid_of_mem_workflow hr
  simp [AdminUpdateOrderStatus, hm, hid, hs, hv, hload, httpError]

/-- Witness of C6: the store holds order 7 only and order 8 is requested. -/
theorem C6_missing_order_not_found_witness :
    (AdminUpdateOrderStatus envOk ⟨true, [sampleOrder 7 "pending" "psid-1"]⟩
        (putStatus "8" "preparing")).resp = some (httpError "Order not found" 404) ∧
    (AdminUpdateOrderStatus envOk ⟨true, [sampleOrder 7 "pending" "psid-1"]⟩
        (putStatus "8" "preparing")).writes = [] :=
  have h := C6_missing_order_not_found envOk ⟨true, [sampleOrder 7 "pending" "psid-1"]⟩
    (putStatus "8" "preparing") 8 "preparing" "sql: no rows in result set"
    (by decide) (by decide) rfl (by decide) (by decide)
  ⟨h.1, h.2.2.1⟩

theorem notifyTask_sends (env : Env) (orderID : Int) (sender : String) {c status : String}
    (h : (c, status) ∈ forwardSteps) :
    ∃ text, (notifyTask env orderID sender status).1 = [(sender, text)] := by
  simp only [forwardSteps, List.mem_cons, Prod.mk.injEq, List.mem_singleton,
    List.not_mem_nil, or_false] at h
  rcases h with ⟨_, rfl⟩ | ⟨_, rfl⟩ | ⟨_, rfl⟩ <;>
    cases hsend : env.send <;> simp [notifyTask, statusMessages, List.lookup, hsend]

theorem notifyTask_sends_indep (env : Env) (s : SendResult) (orderID : Int)
    (sender status : String) :
    (notifyTask { env with send := s } orderID sender status).1 =
      (notifyTask env orderID sender status).1 := by
  unfold notifyTask
  cases statusMessages.lookup status <;> cases env.send <;> cases s <;> rfl

/-- C7. On a valid forward transition whose store write succeeds, the
notification task attempts `SendMessage` exactly once, addressed to the
order's `SenderID`, when `SenderID` is non-empty, and not at all when it is
empty; `notification_dispatched` in the answer reports that condition; and
the answer, the stored rows, the `UPDATE` issued and the attempted sends are
the same for every outcome of the send (success, error or panic). -/
theorem C7_notification_best_effort (env : Env) (db : DB) (r : Request)
    (orderID : Int) (status : String) (o : Order)
    (hm : r.Method ≠ "OPTIONS") (hid : Atoi r.id = some orderID)
    (hs : r.Status = some status) (hload : GetOrderByID env db orderID = .ok o)
    (hstep : (o.Status, status) ∈ forwardSteps) (hexec : env.execErr = none) :
    (o.SenderID ≠ "" → ∃ text, (AdminUpdateOrderStatus env db r).sends = [(o.SenderID, text)]) ∧
    (o.SenderID = "" → (AdminUpdateOrderStatus env db r).sends = []) ∧
    (AdminUpdateOrderStatus env db r).resp =
      some ⟨200, .json
        [("success", .bool true), ("order_id", .int orderID),
         ("new_status", .str status), ("message", .str "Order status updated"),
         ("notification_dispatched", .bool (o.SenderID != ""))]⟩ ∧
    ∀ s : SendResult,
      (AdminUpdateOrderStatus { env with send := s } db r).resp =
        (AdminUpdateOrderStatus env db r).resp ∧
      (AdminUpdateOrderStatus { env with send := s } db r).db =
        (AdminUpdateOrderStatus env db r).db ∧
      (AdminUpdateOrderStatus { env with send := s } db r).writes =
        (AdminUpdateOrderStatus env db r).writes ∧
      (AdminUpdateOrderStatus { env with send := s } db r).sends =
        (AdminUpdateOrderStatus env db r).sends := by
  have hload2 : ∀ s : SendResult, GetOrderByID { env with send := s } db orderID = .ok o :=
    fun s => hload
  rw [admin_forward env db r orderID status o hm hid hs hload hstep hexec]
  refine ⟨?_, ?_, ?_, ?_⟩
  · intro hne
    have : (o.SenderID != "") = true := by simpa using hne
    simp only [this, if_true]
    exact notifyTask_sends env orderID o.SenderID hstep
  · intro he
    simp [he]
  · rfl
  · intro s
    rw [admin_forward { env with send := s } db r orderID status o hm hid hs (hload2 s) hstep
      hexec]
    simp only [notifyTask_sends_indep, and_self]

/-- Witness of C7: `ready -> delivered` on order 7 with sender `psid-1`,
compared with the run in which the send fails. -/
theorem C7_notification_best_effort_witness :
    (∃ text, (AdminUpdateOrderStatus envOk ⟨true, [sampleOrder 7 "ready" "psid-1"]⟩
        (putStatus "7" "delivered")).sends = [("psid-1", text)]) ∧
    (AdminUpdateOrderStatus { envOk with send := .failed "timeout" }
        ⟨true, [sampleOrder 7 "ready" "psid-1"]⟩ (putStatus "7" "delivered")).resp =
      (AdminUpdateOrderStatus envOk ⟨true, [sampleOrder 7 "ready" "psid-1"]⟩
        (putStatus "7" "delivered")).resp :=
  have h := C7_notification_best_effort envOk ⟨true, [sampleOrder 7 "ready" "psid-1"]⟩
    (putStatus "7" "delivered") 7 "delivered" (sampleOrder 7 "ready" "psid-1")
    (by decide) (by decide) rfl (by decide) (by decide) rfl
  ⟨h.1 (by decide), (h.2.2.2 (.failed "timeout")).1⟩


/-! ## Conversation: lemmas -/

theorem wrapInt_of_fits {x : Int} (h1 : -(2 ^ 63 : Int) ≤ x) (h2 : x < 2 ^ 63) :
    wrapInt x = x := by
  unfold wrapInt
  omega

theorem wrapInt_wrapInt_add (a b : Int) : wrapInt (wrapInt a + b) = wrapInt (a + b) := by
  unfold wrapInt
  omega

theorem wrapInt_idem (a : Int) : wrapInt (wrapInt a) = wrapInt a := by
  unfold wrapInt
  omega

theorem foldl_addInt (cart : List CartItem) :
    ∀ acc : Int, wrapInt acc = acc →
      cart.foldl (fun a item => addInt a item.Quantity) acc =
        wrapInt (acc + (cart.map (fun i => i.Quantity)).sum) := by
  induction cart with
  | nil => intro acc h; simpa using h.symm
  | cons item rest ih =>
    intro acc _
    simp only [List.foldl_cons, List.map_cons, List.sum_cons]
    rw [ih (addInt acc item.Quantity) (wrapInt_idem _), addInt, wrapInt_wrapInt_add, add_assoc]

/-- The running total is the sum of the quantities, reduced to a Go `int`. -/
theorem totalItems_eq (cart : List CartItem) :
    totalItems cart = wrapInt (cart.map (fun i => i.Quantity)).sum := by
  unfold totalItems
  rw [foldl_addInt cart 0 (by decide), zero_add]

@[simp] theorem emit_UserStates (w : World) (m : Outbound) :
    (w.emit m).UserStates = w.UserStates := rfl

@[simp] theorem emit_heap (w : World) (m : Outbound) : (w.emit m).heap = w.heap := rfl

@[simp] theorem emit_sent (w : World) (m : Outbound) : (w.emit m).sent = w.sent ++ [m] := rfl

@[simp] theorem modify_UserStates (w : World) (p : Nat) (f : UserState → UserState) :
    (w.modify p f).UserStates = w.UserStates := rfl

@[simp] theorem modify_sent (w : World) (p : Nat) (f : UserState → UserState) :
    (w.modify p f).sent = w.sent := rfl

@[simp] theorem modify_heap_same (w : World) (p : Nat) (f : UserState → UserState) :
    (w.modify p f).heap p = f (w.heap p) := by
  simp [World.modify]

theorem getUserState_known {w : World} {userID : String} {p : Nat}
    (h : w.UserStates userID = some p) : GetUserState userID w = (p, w) := by
  simp [GetUserState, h]

/-- After `GetUserState` the user is known, at the pointer it returned. -/
theorem getUserState_registers (userID : String) (w : World) :
    (GetUserState userID w).2.UserStates userID = some (GetUserState userID w).1 := by
  unfold GetUserState
  cases h : w.UserStates userID <;> simp [h]

theorem getUserState_sent (userID : String) (w : World) :
    (GetUserState userID w).2.sent = w.sent := by
  unfold GetUserState
  cases h : w.UserStates userID <;> simp [h]

/-- A user whose observed state is not the initial one is already known. -/
theorem known_of_state_ne {w : World} {userID : String}
    (h : (observedState userID w).State ≠ "language_selection") :
    GetUserState userID w = ((GetUserState userID w).1, w) := by
  unfold observedState at h
  unfold GetUserState at h ⊢
  cases hu : w.UserStates userID with
  | some p => simp
  | none => simp [hu, initialUserState] at h

/-- Observing after one more outbound call sees the same state. -/
theorem observedState_emit_get (userID : String) (w : World) (m : Outbound) :
    observedState userID ((GetUserState userID w).2.emit m) = observedState userID w := by
  have h := getUserState_registers userID w
  unfold observedState
  rw [getUserState_known (w := (GetUserState userID w).2.emit m) (p := (GetUserState userID w).1)
    (by simpa using h)]
  rfl


/-! ## Conversation: claims -/

/-- C8. For each token `QTY_1` .. `QTY_5` and every user whose state is not
`awaiting_quantity`, `handlePostback` only sends the corrective message
"Please select a product first!": the state the user is observed in afterwards
(`Cart`, `State`, `CurrentQuantity` and every other field) is the one observed
before. -/
theorem C8_quantity_token_in_other_state (c : Collab) (w : World) (userID tok : String)
    (htok : tok ∈ ["QTY_1", "QTY_2", "QTY_3", "QTY_4", "QTY_5"])
    (hstate : (observedState userID w).State ≠ "awaiting_quantity") :
    observedState userID (handlePostback c userID tok w) = observedState userID w ∧
    (handlePostback c userID tok w).sent =
      w.sent ++ [.message userID "⚠️ Please select a product first!"] ∧
    handlePostback c userID tok w =
      (GetUserState userID w).2.emit (.message userID "⚠️ Please select a product first!") := by
  have hrun : handlePostback c userID tok w =
      (GetUserState userID w).2.emit (.message userID "⚠️ Please select a product first!") := by
    simp only [observedState] at hstate
    simp only [List.mem_cons, List.mem_singleton, List.not_mem_nil, or_false] at htok
    rcases htok with rfl | rfl | rfl | rfl | rfl <;>
      simp [handlePostback, selectQuantity, hstate]
  refine ⟨?_, ?_, hrun⟩
  · rw [hrun, observedState_emit_get]
  · rw [hrun, emit_sent, getUserState_sent]

/-- Witness of C8: `QTY_3` from a user never seen before. -/
theorem C8_quantity_token_in_other_state_witness :
    observedState "u1" (handlePostback openShop "u1" "QTY_3" World.start) =
      observedState "u1" World.start ∧
    (handlePostback openShop "u1" "QTY_3" World.start).sent =
      World.start.sent ++ [.message "u1" "⚠️ Please select a product first!"] :=
  have h := C8_quantity_token_in_other_state openShop World.start "u1" "QTY_3"
    (by decide) (by decide)
  ⟨h.1, h.2.1⟩

/-- C9. For `n` in 1..5 and a user observed in state `st` with
`st.State = awaiting_quantity`, `handlePostback` with `QTY_n` appends the one
item `(st.CurrentProduct, st.CurrentEmoji, n)` to the cart, leaving the earlier
items in place, clears the scratch fields to `("", "", 0)`, sets `State` to
`awaiting_cart_decision` and changes no other field; it sends the typing
indicator and then the prompt whose running total (in the text and on the
checkout button) is `totalItems` of the new cart, which is the sum of the
quantities of the new cart as a Go `int`, hence the sum itself whenever that
fits 64 bits. -/
theorem C9_quantity_folded_into_cart (c : Collab) (w : World) (userID tok : String)
    (n : Int) (st : UserState)
    (htok : (n, tok) ∈ [(1, "QTY_1"), (2, "QTY_2"), (3, "QTY_3"), (4, "QTY_4"), (5, "QTY_5")])
    (hobs : observedState userID w = st) (hstate : st.State = "awaiting_quantity") :
    observedState userID (handlePostback c userID tok w) =
      { st with
        Cart := st.Cart ++ [⟨st.CurrentProduct, st.CurrentEmoji, n⟩]
        CurrentProduct := "", CurrentEmoji := "", CurrentQuantity := 0
        State := "awaiting_cart_decision" } ∧
    (handlePostback c userID tok w).sent =
      w.sent ++ [.typing userID true,
        .quickReplies userID
          ("✅ " ++ fmtInt n ++ "× " ++ st.CurrentEmoji ++ " " ++ st.CurrentProduct ++
            " added\n\nCart: " ++
            fmtInt (totalItems (st.Cart ++ [⟨st.CurrentProduct, st.CurrentEmoji, n⟩])) ++
            " items")
          [⟨"text", "Add More", "ADD_MORE_ITEMS"⟩,
           ⟨"text", "Checkout (" ++
              fmtInt (totalItems (st.Cart ++ [⟨st.CurrentProduct, st.CurrentEmoji, n⟩])) ++ ")",
            "CHECKOUT"⟩,
           ⟨"text", "❌ Cancel", "CANCEL_ORDER"⟩]] ∧
    totalItems (st.Cart ++ [⟨st.CurrentProduct, st.CurrentEmoji, n⟩]) =
      wrapInt ((st.Cart.map (fun i => i.Quantity)).sum + n) ∧
    (-(2 ^ 63 : Int) ≤ (st.Cart.map (fun i => i.Quantity)).sum + n →
      (st.Cart.map (fun i => i.Quantity)).sum + n < 2 ^ 63 →
      totalItems (st.Cart ++ [⟨st.CurrentProduct, st.CurrentEmoji, n⟩]) =
        (st.Cart.map (fun i => i.Quantity)).sum + n) := by
  subst hobs
  have hne : (observedState userID w).State ≠ "language_selection" := by
    rw [hstate]; decide
  have hk := known_of_state_ne hne
  have hreg := getUserState_registers userID w
  rw [hk] at hreg
  simp only at hreg
  have hst : observedState userID w = w.heap (GetUserState userID w).1 := by
    unfold observedState; rw [hk]
  rw [hst] at hstate ⊢
  generalize (GetUserState userID w).1 = p at hk hreg hstate ⊢
  have htot : totalItems ((w.heap p).Cart ++
      [⟨(w.heap p).CurrentProduct, (w.heap p).CurrentEmoji, n⟩]) =
      wrapInt (((w.heap p).Cart.map (fun i => i.Quantity)).sum + n) := by
    rw [totalItems_eq]; simp
  refine ⟨?_, ?_, htot, fun h1 h2 => by rw [htot, wrapInt_of_fits h1 h2]⟩
  · simp only [List.mem_cons, Prod.mk.injEq, List.mem_singleton, List.not_mem_nil,
      or_false] at htok
    rcases htok with ⟨rfl, rfl⟩ | ⟨rfl, rfl⟩ | ⟨rfl, rfl⟩ | ⟨rfl, rfl⟩ | ⟨rfl, rfl⟩ <;>
      simp [handlePostback, selectQuantity, addToCart, askAddMore, hk, hstate, observedState,
        getUserState_known, hreg]
  · simp only [List.mem_cons, Prod.mk.injEq, List.mem_singleton, List.not_mem_nil,
      or_false] at htok
    rcases htok with ⟨rfl, rfl⟩ | ⟨rfl, rfl⟩ | ⟨rfl, rfl⟩ | ⟨rfl, rfl⟩ | ⟨rfl, rfl⟩ <;>
      simp [handlePostback, selectQuantity, addToCart, askAddMore, hk, hstate,
        getUserState_known, hreg]

/-- Witness of C9: `QTY_3` for the croissant picked after two coffees. -/
theorem C9_quantity_folded_into_cart_witness :
    observedState "u1" (handlePostback openShop "u1" "QTY_3"
        (worldWith "u1" pickingCroissant)) =
      { pickingCroissant with
        Cart := [⟨"Coffee", "☕", 2⟩, ⟨"Croissant", "🥐", 3⟩]
        CurrentProduct := "", CurrentEmoji := "", CurrentQuantity := 0
        State := "awaiting_cart_decision" } ∧
    totalItems [⟨"Coffee", "☕", 2⟩, ⟨"Croissant", "🥐", 3⟩] = 5 :=
  have h := C9_quantity_folded_into_cart openShop (worldWith "u1" pickingCroissant) "u1"
    "QTY_3" 3 pickingCroissant (by decide) rfl rfl
  ⟨h.1, h.2.2.2 (by decide) (by decide)⟩

/-- C10. For each of the nine static product tokens and every user whose
state is not `awaiting_product`, `handlePostback` only sends the corrective
prompt "Please complete your current step first, or type 'cancel' to start
over.": every field of the state the user is observed in afterwards is as
before. -/
theorem C10_product_token_in_other_state (c : Collab) (w : World) (userID tok : String)
    (htok : tok ∈ ["ORDER_CHOCOLATE_CAKE", "ORDER_VANILLA_CAKE", "ORDER_RED_VELVET",
      "ORDER_CROISSANT", "ORDER_CINNAMON_ROLL", "ORDER_CUPCAKE", "ORDER_COFFEE",
      "ORDER_BREAD", "ORDER_CHOCOLATE_CUPCAKE"])
    (hstate : (observedState userID w).State ≠ "awaiting_product") :
    observedState userID (handlePostback c userID tok w) = observedState userID w ∧
    (handlePostback c userID tok w).sent =
      w.sent ++ [.message userID
        "⚠️ Please complete your current step first, or type 'cancel' to start over."] ∧
    handlePostback c userID tok w =
      (GetUserState userID w).2.emit (.message userID
        "⚠️ Please complete your current step first, or type 'cancel' to start over.") := by
  have hrun : handlePostback c userID tok w =
      (GetUserState userID w).2.emit (.message userID
        "⚠️ Please complete your current step first, or type 'cancel' to start over.") := by
    simp only [observedState] at hstate
    simp only [List.mem_cons, List.mem_singleton, List.not_mem_nil, or_false] at htok
    rcases htok with rfl | rfl | rfl | rfl | rfl | rfl | rfl | rfl | rfl <;>
      simp [handlePostback, selectCatalogProduct, hstate, completeStepFirst]
  refine ⟨?_, ?_, hrun⟩
  · rw [hrun, observedState_emit_get]
  · rw [hrun, emit_sent, getUserState_sent]

/-- Witness of C10: `ORDER_COFFEE` while a quantity is being asked. -/
theorem C10_product_token_in_other_state_witness :
    observedState "u1" (handlePostback openShop "u1" "ORDER_COFFEE"
        (worldWith "u1" pickingCroissant)) =
      observedState "u1" (worldWith "u1" pickingCroissant) ∧
    (handlePostback openShop "u1" "ORDER_COFFEE" (worldWith "u1" pickingCroissant)).sent =
      (worldWith "u1" pickingCroissant).sent ++ [.message "u1"
        "⚠️ Please complete your current step first, or type 'cancel' to start over."] :=
  have h := C10_product_token_in_other_state openShop (worldWith "u1" pickingCroissant) "u1"
    "ORDER_COFFEE" (by decide) (by decide)
  ⟨h.1, h.2.1⟩

/-- C11 (evaluation at the failing input). A user who is being asked for a
name presses a stale button of product 12 while the shop is open: no corrective
prompt is sent; the scratch product and emoji are overwritten and `State`
becomes `awaiting_quantity`, and the quantity question is sent. -/
theorem C11_dynamic_product_token_mutates :
    observedState "u1" (handlePostback shopWithTart "u1" "ORDER_PRODUCT_12"
        (worldWith "u1" givingName)) =
      { givingName with
        CurrentProduct := "Lemon Tart", CurrentEmoji := "🥧", State := "awaiting_quantity" } ∧
    (handlePostback shopWithTart "u1" "ORDER_PRODUCT_12" (worldWith "u1" givingName)).sent =
      [.typing "u1" true,
       .quickReplies "u1" "How many 🥧 Lemon Tart would you like?"
        [⟨"text", "1", "QTY_1"⟩, ⟨"text", "2", "QTY_2"⟩, ⟨"text", "3", "QTY_3"⟩,
         ⟨"text", "4", "QTY_4"⟩, ⟨"text", "5", "QTY_5"⟩, ⟨"text", "⬅️ Back", "GO_BACK"⟩,
         ⟨"text", "❌ Cancel", "CANCEL_ORDER"⟩]] := by
  constructor <;> rfl

theorem observedState_reset (userID : String) (w : World) :
    observedState userID (ResetUserState userID w) = initialUserState := by
  simp [observedState, GetUserState, ResetUserState]

theorem observedState_emit (userID : String) (w : World) (m : Outbound) :
    observedState userID (w.emit m) = observedState userID w := by
  unfold observedState GetUserState
  simp only [emit_UserStates]
  cases w.UserStates userID <;> rfl

/-- C12. For every user, whatever the state and the cart, `handlePostback`
with `CANCEL_ORDER` deletes the user's entry from `UserStates`, leaves the
entries of all other users alone and sends the three closing messages; the
state observed at the next event of that user is the initial one:
`State = language_selection` with an empty cart and empty language, name,
delivery type and address. -/
theorem C12_cancel_discards_state (c : Collab) (w : World) (userID : String) :
    (handlePostback c userID "CANCEL_ORDER" w).UserStates userID = none ∧
    (∀ other, other ≠ userID →
      (handlePostback c userID "CANCEL_ORDER" w).UserStates other = w.UserStates other) ∧
    (handlePostback c userID "CANCEL_ORDER" w).sent =
      w.sent ++ [.message userID "❌ Order cancelled.",
        .message userID "━━━━━━━━━━━━━━━━━",
        .message userID "Ready to start fresh? Type 'menu' to see our products!"] ∧
    observedState userID (handlePostback c userID "CANCEL_ORDER" w) =
      { State := "language_selection", Language := "", CurrentProduct := "",
        CurrentEmoji := "", CurrentQuantity := 0, Cart := [], CustomerName := "",
        DeliveryType := "", Address := "" } := by
  have hrun : handlePostback c userID "CANCEL_ORDER" w =
      (((ResetUserState userID (GetUserState userID w).2).emit
        (.message userID "❌ Order cancelled.")).emit
        (.message userID "━━━━━━━━━━━━━━━━━")).emit
        (.message userID "Ready to start fresh? Type 'menu' to see our products!") := by
    simp [handlePostback]
  rw [hrun]
  refine ⟨?_, ?_, ?_, ?_⟩
  · simp [ResetUserState]
  · intro other hne
    unfold GetUserState
    cases h : w.UserStates userID <;> simp [ResetUserState, Function.update, hne]
  · simp [ResetUserState, getUserState_sent]
  · rw [observedState_emit, observedState_emit, observedState_emit, observedState_reset]
    rfl

theorem observedState_get (userID : String) (w : World) :
    (GetUserState userID w).2.heap (GetUserState userID w).1 = observedState userID w := rfl

/-- Observing after a write through the user's own pointer. -/
theorem observedState_modify_get (userID : String) (w : World) (f : UserState → UserState) :
    observedState userID ((GetUserState userID w).2.modify (GetUserState userID w).1 f) =
      f (observedState userID w) := by
  have h := getUserState_registers userID w
  unfold observedState
  rw [getUserState_known (w := (GetUserState userID w).2.modify (GetUserState userID w).1 f)
    (p := (GetUserState userID w).1) (by simpa using h)]
  simp

/-- C14. For every user: `PICKUP` sets `DeliveryType` to `pickup`, `Address`
to "Pickup at store" and `State` to `confirming`; `DELIVERY` sets
`DeliveryType` to `delivery` and `State` to `awaiting_address` and leaves
`Address` as it was; neither changes `Cart`, `CustomerName`, `Language` or the
scratch fields. -/
theorem C14_delivery_type_selection (c : Collab) (w : World) (userID : String) :
    observedState userID (handlePostback c userID "PICKUP" w) =
      { observedState userID w with
        DeliveryType := "pickup", Address := "Pickup at store", State := "confirming" } ∧
    observedState userID (handlePostback c userID "DELIVERY" w) =
      { observedState userID w with
        DeliveryType := "delivery", State := "awaiting_address" } := by
  have hreg := getUserState_registers userID w
  constructor
  · have hrun : handlePostback c userID "PICKUP" w =
        showOrderSummary c userID
          (((GetUserState userID w).2.modify (GetUserState userID w).1
            (fun s => { s with DeliveryType := "pickup", Address := "Pickup at store",
                               State := "confirming" })).emit (.typing userID true)) := by
      simp [handlePostback, World.modify]
    rw [hrun]
    unfold showOrderSummary
    rw [getUserState_known (p := (GetUserState userID w).1) (by simpa using hreg)]
    simp only [observedState_emit, observedState_modify_get]
  · have hrun : handlePostback c userID "DELIVERY" w =
        ((GetUserState userID w).2.modify (GetUserState userID w).1
            (fun s => { s with DeliveryType := "delivery", State := "awaiting_address" })).emit
          (.quickReplies userID
            "Perfect! Please type your delivery address:\n(Street, City, ZIP)"
            [⟨"text", "⬅️ Back", "GO_BACK"⟩, ⟨"text", "❌ Cancel", "CANCEL_ORDER"⟩]) := by
      simp [handlePostback, World.modify]
    rw [hrun]
    simp only [observedState_emit, observedState_modify_get]

/-- A payload that is no case label is handled by the `default` case. -/
theorem handlePostback_default (c : Collab) (userID payload : String) (w : World)
    (h : payload ∉ staticTokens) :
    handlePostback c userID payload w =
      handlePostbackDefault c userID payload (GetUserState userID w).1
        (GetUserState userID w).2 := by
  simp only [staticTokens, List.mem_cons, List.mem_singleton, List.not_mem_nil, or_false,
    not_or] at h
  unfold handlePostback
  simp only []
  split <;> first | rfl | simp_all

/-- C13. A payload that is no case label of `handlePostback`, has no
`QUICK_ADD_` or `QUICK_VIEW_` prefix, and after a prefix `ORDER_PRODUCT_`,
`REORDER_` or `RATE_ORDER_` carries no number, reaches the catch-all: the
apology is the one message sent, the user's entry is deleted, and the next
event of that user observes the initial state (`language_selection`, empty
cart). -/
theorem C13_unrecognized_payload_resets (c : Collab) (w : World) (userID payload : String)
    (hstatic : payload ∉ staticTokens)
    (hproduct : startsWithStr payload "ORDER_PRODUCT_" = true →
      Atoi (dropLeading payload "ORDER_PRODUCT_") = none)
    (hadd : startsWithStr payload "QUICK_ADD_" = false)
    (hview : startsWithStr payload "QUICK_VIEW_" = false)
    (hreorder : startsWithStr payload "REORDER_" = true →
      Atoi (dropLeading payload "REORDER_") = none)
    (hrate : startsWithStr payload "RATE_ORDER_" = true →
      Atoi (dropLeading payload "RATE_ORDER_") = none) :
    handlePostback c userID payload w =
      ResetUserState userID ((GetUserState userID w).2.emit
        (.message userID "Sorry, I didn't understand that. Let's start over!")) ∧
    (handlePostback c userID payload w).sent =
      w.sent ++ [.message userID "Sorry, I didn't understand that. Let's start over!"] ∧
    (handlePostback c userID payload w).UserStates userID = none ∧
    observedState userID (handlePostback c userID payload w) =
      { State := "language_selection", Language := "", CurrentProduct := "",
        CurrentEmoji := "", CurrentQuantity := 0, Cart := [], CustomerName := "",
        DeliveryType := "", Address := "" } := by
  have hrun : handlePostback c userID payload w =
      ResetUserState userID ((GetUserState userID w).2.emit
        (.message userID "Sorry, I didn't understand that. Let's start over!")) := by
    rw [handlePostback_default c userID payload w hstatic]
    unfold handlePostbackDefault
    simp only [hadd, hview, Bool.false_eq_true, if_false]
    by_cases h1 : startsWithStr payload "ORDER_PRODUCT_" = true <;>
      by_cases h2 : startsWithStr payload "REORDER_" = true <;>
      by_cases h3 : startsWithStr payload "RATE_ORDER_" = true <;>
      simp [h1, h2, h3, hproduct, hreorder, hrate]
  rw [hrun]
  refine ⟨rfl, ?_, ?_, ?_⟩
  · simp [ResetUserState, getUserState_sent]
  · simp [ResetUserState]
  · rw [observedState_reset]; rfl

/-- Witness of C13: the payload `HELLO`. -/
theorem C13_unrecognized_payload_resets_witness :
    (handlePostback openShop "u1" "HELLO" (worldWith "u1" givingName)).sent =
      (worldWith "u1" givingName).sent ++
        [.message "u1" "Sorry, I didn't understand that. Let's start over!"] ∧
    (handlePostback openShop "u1" "HELLO" (worldWith "u1" givingName)).UserStates "u1" = none :=
  have h := C13_unrecognized_payload_resets openShop (worldWith "u1" givingName) "u1" "HELLO"
    (by decide) (by decide) (by decide) (by decide) (by decide) (by decide)
  ⟨h.2.1, h.2.2.1⟩

/-! ## Quick order: lemmas -/

theorem observedState_showQuickCartSummary (userID : String) (w : World) :
    observedState userID (showQuickCartSummary userID w) = observedState userID w := by
  unfold showQuickCartSummary
  simp only []
  split_ifs <;> exact observedState_emit_get userID w _

/-- The state observed after `handleQuickAddProduct`, from the one before. -/
theorem observedState_handleQuickAdd (userID key : String) (w : World) :
    observedState userID (handleQuickAddProduct userID key w) =
      match productMap.lookup key with
      | none => observedState userID w
      | some prod =>
        { observedState userID w with
          Cart :=
            match incrementFirst prod.1 (observedState userID w).Cart with
            | some cart => cart
            | none => (observedState userID w).Cart ++ [CartItem.mk prod.1 prod.2.2 1] } := by
  unfold handleQuickAddProduct
  simp only []
  cases productMap.lookup key with
  | none => exact observedState_emit_get userID w _
  | some prod =>
    simp only [observedState_get]
    rw [observedState_showQuickCartSummary, observedState_emit]
    cases incrementFirst prod.1 (observedState userID w).Cart with
    | none => simp only [observedState_modify_get]
    | some cart => simp only [observedState_modify_get]

/-- When the name occurs, `incrementFirst` rewrites exactly the first entry
carrying it. -/
theorem incrementFirst_of_mem (name : String) (cart : List CartItem)
    (h : ∃ i ∈ cart, i.Product = name) :
    ∃ pre item post, cart = pre ++ item :: post ∧ (∀ x ∈ pre, x.Product ≠ name) ∧
      item.Product = name ∧
      incrementFirst name cart =
        some (pre ++ { item with Quantity := addInt item.Quantity 1 } :: post) := by
  induction cart with
  | nil => simp at h
  | cons a t ih =>
    by_cases ha : a.Product = name
    · exact ⟨[], a, t, rfl, by simp, ha, by simp [incrementFirst, ha]⟩
    · have ht : ∃ i ∈ t, i.Product = name := by
        obtain ⟨i, hi, hp⟩ := h
        rcases List.mem_cons.mp hi with rfl | hi
        · exact absurd hp ha
        · exact ⟨i, hi, hp⟩
      obtain ⟨pre, item, post, hcart, hpre, hitem, hinc⟩ := ih ht
      refine ⟨a :: pre, item, post, by simp [hcart], ?_, hitem, by simp [incrementFirst, ha, hinc]⟩
      intro x hx
      rcases List.mem_cons.mp hx with rfl | hx
      · exact ha
      · exact hpre x hx

theorem addInt_one_of_fits {q : Int} (h1 : -(2 ^ 63 : Int) ≤ q) (h2 : q < 2 ^ 63 - 1) :
    addInt q 1 = q + 1 := by
  unfold addInt wrapInt
  omega

theorem incrementFirst_positive (name : String) :
    ∀ (cart cart2 : List CartItem),
      (∀ i ∈ cart, 1 ≤ i.Quantity ∧ i.Quantity < 2 ^ 63 - 1) →
      incrementFirst name cart = some cart2 → ∀ i ∈ cart2, 1 ≤ i.Quantity := by
  intro cart
  induction cart with
  | nil => intro cart2 _ h; simp [incrementFirst] at h
  | cons a t ih =>
    intro cart2 hall h
    have ha := hall a (List.mem_cons_self _ _)
    have ht : ∀ i ∈ t, 1 ≤ i.Quantity ∧ i.Quantity < 2 ^ 63 - 1 :=
      fun i hi => hall i (List.mem_cons_of_mem _ hi)
    unfold incrementFirst at h
    split_ifs at h with hp
    · cases h
      intro i hi
      rcases List.mem_cons.mp hi with rfl | hi
      · show 1 ≤ addInt a.Quantity 1
        rw [addInt_one_of_fits (by omega) ha.2]; omega
      · exact (ht i hi).1
    · cases hrest : incrementFirst name t with
      | none => simp [hrest] at h
      | some r =>
        simp [hrest] at h
        subst h
        intro i hi
        rcases List.mem_cons.mp hi with rfl | hi
        · exact ha.1
        · exact ih r ht hrest i hi

/-- `handleQuickAddProduct` keeps every quantity of the cart at least 1, as
long as no quantity is the largest `int`. -/
theorem handleQuickAdd_positive (userID key : String) (w : World)
    (hall : ∀ i ∈ (observedState userID w).Cart, 1 ≤ i.Quantity ∧ i.Quantity < 2 ^ 63 - 1) :
    ∀ i ∈ (observedState userID (handleQuickAddProduct userID key w)).Cart,
      1 ≤ i.Quantity := by
  rw [observedState_handleQuickAdd]
  cases productMap.lookup key with
  | none => exact fun i hi => (hall i hi).1
  | some prod =>
    simp only []
    cases hinc : incrementFirst prod.1 (observedState userID w).Cart with
    | some cart => exact incrementFirst_positive prod.1 _ cart hall hinc
    | none =>
      intro i hi
      simp only [List.mem_append, List.mem_singleton] at hi
      rcases hi with hi | rfl
      · exact (hall i hi).1
      · exact le_refl _

/-- C15. When the product of a known quick-order key already occurs in the
cart, `handleQuickAddProduct` rewrites only the first entry with that product
name, adding one to its quantity; the entries before and after it, their order
and the length of the cart are unchanged, and the sum of the quantities grows
by exactly 1 (the increment is the `++` of a Go `int`, so this needs the
quantity to be below the largest `int`). -/
theorem C15_quick_add_existing_increments (w : World) (userID key name emoji : String)
    (price : Int) (hkey : productMap.lookup key = some (name, price, emoji))
    (hin : ∃ i ∈ (observedState userID w).Cart, i.Product = name) :
    ∃ pre item post,
      (observedState userID w).Cart = pre ++ item :: post ∧
      (∀ x ∈ pre, x.Product ≠ name) ∧ item.Product = name ∧
      (observedState userID (handleQuickAddProduct userID key w)).Cart =
        pre ++ { item with Quantity := addInt item.Quantity 1 } :: post ∧
      (observedState userID (handleQuickAddProduct userID key w)).Cart.length =
        (observedState userID w).Cart.length ∧
      (-(2 ^ 63 : Int) ≤ item.Quantity → item.Quantity < 2 ^ 63 - 1 →
        addInt item.Quantity 1 = item.Quantity + 1 ∧
        ((observedState userID (handleQuickAddProduct userID key w)).Cart.map
            (fun i => i.Quantity)).sum =
          ((observedState userID w).Cart.map (fun i => i.Quantity)).sum + 1) := by
  obtain ⟨pre, item, post, hcart, hpre, hitem, hinc⟩ :=
    incrementFirst_of_mem name (observedState userID w).Cart hin
  have hafter : (observedState userID (handleQuickAddProduct userID key w)).Cart =
      pre ++ { item with Quantity := addInt item.Quantity 1 } :: post := by
    rw [observedState_handleQuickAdd, hkey]
    simp only [hinc]
  refine ⟨pre, item, post, hcart, hpre, hitem, hafter, ?_, ?_⟩
  · rw [hafter, hcart]; simp
  · intro h1 h2
    have hq := addInt_one_of_fits h1 h2
    refine ⟨hq, ?_⟩
    rw [hafter, hcart, hq]
    simp only [List.map_append, List.map_cons, List.sum_append, List.sum_cons]
    ring

/-- Witness of C15: one more chocolate cake into `cakeCart`. -/
theorem C15_quick_add_existing_increments_witness :
    ∃ pre item post,
      (observedState "u1" (worldWith "u1" (quickOrdering "en"))).Cart = pre ++ item :: post ∧
      (∀ x ∈ pre, x.Product ≠ "Chocolate Cake") ∧ item.Product = "Chocolate Cake" ∧
      (observedState "u1" (handleQuickAddProduct "u1" "QUICK_ORDER_CAKE"
          (worldWith "u1" (quickOrdering "en")))).Cart =
        pre ++ { item with Quantity := addInt item.Quantity 1 } :: post ∧
      (observedState "u1" (handleQuickAddProduct "u1" "QUICK_ORDER_CAKE"
          (worldWith "u1" (quickOrdering "en")))).Cart.length =
        (observedState "u1" (worldWith "u1" (quickOrdering "en"))).Cart.length ∧
      (-(2 ^ 63 : Int) ≤ item.Quantity → item.Quantity < 2 ^ 63 - 1 →
        addInt item.Quantity 1 = item.Quantity + 1 ∧
        ((observedState "u1" (handleQuickAddProduct "u1" "QUICK_ORDER_CAKE"
            (worldWith "u1" (quickOrdering "en")))).Cart.map (fun i => i.Quantity)).sum =
          ((observedState "u1" (worldWith "u1" (quickOrdering "en"))).Cart.map
            (fun i => i.Quantity)).sum + 1) :=
  C15_quick_add_existing_increments (worldWith "u1" (quickOrdering "en")) "u1"
    "QUICK_ORDER_CAKE" "Chocolate Cake" "🍰" 25 (by decide)
    ⟨⟨"Chocolate Cake", "🍰", 1⟩, by decide, rfl⟩

theorem observedState_getUserState (userID : String) (w : World) :
    observedState userID (GetUserState userID w).2 = observedState userID w := by
  have h := getUserState_registers userID w
  unfold observedState
  rw [getUserState_known (w := (GetUserState userID w).2) (p := (GetUserState userID w).1) h]

/-- The state observed after `addToCart`. -/
theorem observedState_addToCart (userID : String) (w : World) :
    observedState userID (addToCart userID w) =
      { observedState userID w with
        Cart := (observedState userID w).Cart ++
          [⟨(observedState userID w).CurrentProduct, (observedState userID w).CurrentEmoji,
            (observedState userID w).CurrentQuantity⟩]
        CurrentProduct := "", CurrentEmoji := "", CurrentQuantity := 0
        State := "awaiting_cart_decision" } := by
  have hreg := getUserState_registers userID w
  unfold observedState addToCart
  simp only []
  generalize (GetUserState userID w).1 = p at hreg ⊢
  generalize (GetUserState userID w).2 = w1 at hreg ⊢
  simp [askAddMore, getUserState_known, hreg]

/-- The cart observed after a quantity case: unchanged, or one item of that
quantity appended. -/
theorem cart_after_selectQuantity (userID : String) (w : World) (n : Int) :
    (observedState userID (selectQuantity userID n (GetUserState userID w).1
      (GetUserState userID w).2)).Cart = (observedState userID w).Cart ∨
    ∃ p e, (observedState userID (selectQuantity userID n (GetUserState userID w).1
      (GetUserState userID w).2)).Cart = (observedState userID w).Cart ++ [⟨p, e, n⟩] := by
  unfold selectQuantity
  split_ifs with h
  · left; rw [observedState_emit_get userID w _]
  · right
    refine ⟨(observedState userID w).CurrentProduct, (observedState userID w).CurrentEmoji, ?_⟩
    rw [observedState_addToCart, observedState_emit, observedState_modify_get]

theorem cart_after_quickClear (userID : String) (w : World) :
    (observedState userID (handleQuickClearCart userID w)).Cart = [] := by
  unfold handleQuickClearCart
  simp only [observedState_emit, observedState_modify_get]

theorem observedState_showMiniOrderForm (userID : String) (w : World) :
    observedState userID (ShowMiniOrderForm userID w) =
      { observedState userID w with State := "quick_ordering" } := by
  unfold ShowMiniOrderForm
  simp only [observedState_emit, observedState_modify_get]

theorem quickAdd_starts (key : String) :
    startsWithStr ("QUICK_ADD_" ++ key) "QUICK_ADD_" = true ∧
    startsWithStr ("QUICK_ADD_" ++ key) "ORDER_PRODUCT_" = false := by
  have h : "QUICK_ADD_".toList = ['Q', 'U', 'I', 'C', 'K', '_', 'A', 'D', 'D', '_'] := by decide
  have h2 : "ORDER_PRODUCT_".toList =
      ['O', 'R', 'D', 'E', 'R', '_', 'P', 'R', 'O', 'D', 'U', 'C', 'T', '_'] := by decide
  simp [startsWithStr, String.toList, h2] at *
  simp [h, List.isPrefixOf]

theorem quickView_starts (key : String) :
    startsWithStr ("QUICK_VIEW_" ++ key) "QUICK_VIEW_" = true ∧
    startsWithStr ("QUICK_VIEW_" ++ key) "ORDER_PRODUCT_" = false := by
  have h : "QUICK_VIEW_".toList = ['Q', 'U', 'I', 'C', 'K', '_', 'V', 'I', 'E', 'W', '_'] := by
    decide
  have h2 : "ORDER_PRODUCT_".toList =
      ['O', 'R', 'D', 'E', 'R', '_', 'P', 'R', 'O', 'D', 'U', 'C', 'T', '_'] := by decide
  simp [startsWithStr, String.toList, h2] at *
  simp [h, List.isPrefixOf]

theorem static_quick_tokens :
    ∀ t ∈ staticTokens,
      (startsWithStr t "QUICK_ADD_" = true → t = "QUICK_ADD_MORE") ∧
      startsWithStr t "QUICK_VIEW_" = false := by
  decide

/-- A payload with prefix `QUICK_ADD_` or `QUICK_VIEW_` and no prefix
`ORDER_PRODUCT_` that is no case label ends in `handleQuickAddProduct`. -/
theorem handlePostback_quick (c : Collab) (userID tok : String) (w : World)
    (hstatic : tok ∉ staticTokens) (hproduct : startsWithStr tok "ORDER_PRODUCT_" = false)
    (hquick : startsWithStr tok "QUICK_ADD_" = true ∨ startsWithStr tok "QUICK_VIEW_" = true) :
    ∃ key, handlePostback c userID tok w =
      handleQuickAddProduct userID key (GetUserState userID w).2 := by
  rw [handlePostback_default c userID tok w hstatic]
  unfold handlePostbackDefault
  simp only [hproduct, Bool.false_eq_true, if_false]
  by_cases hadd : startsWithStr tok "QUICK_ADD_" = true
  · exact ⟨dropLeading tok "QUICK_ADD_", by simp only [hadd, if_true]⟩
  · have hview : startsWithStr tok "QUICK_VIEW_" = true := hquick.resolve_left hadd
    exact ⟨dropLeading tok "QUICK_VIEW_", by simp [hadd, hview]⟩

/-- C16. Cart-quantity invariant. For a user whose cart entries all have
`Quantity ≥ 1` (and below the largest `int`, so that `Quantity++` does not
wrap) and each cart-mutating token (`QTY_1` .. `QTY_5`, `QUICK_CLEAR_CART`,
`QUICK_ADD_<key>` and `QUICK_VIEW_<key>` for any key), every entry of the cart
observed after `handlePostback` has `Quantity ≥ 1`. -/
theorem C16_cart_quantities_stay_positive (c : Collab) (w : World) (userID tok : String)
    (htok : tok ∈ ["QTY_1", "QTY_2", "QTY_3", "QTY_4", "QTY_5", "QUICK_CLEAR_CART"] ∨
      ∃ key, tok = "QUICK_ADD_" ++ key ∨ tok = "QUICK_VIEW_" ++ key)
    (hpos : ∀ i ∈ (observedState userID w).Cart, 1 ≤ i.Quantity)
    (hfit : ∀ i ∈ (observedState userID w).Cart, i.Quantity < 2 ^ 63 - 1) :
    ∀ i ∈ (observedState userID (handlePostback c userID tok w)).Cart, 1 ≤ i.Quantity := by
  have hqty : ∀ n : Int, 1 ≤ n →
      ∀ i ∈ (observedState userID (selectQuantity userID n (GetUserState userID w).1
        (GetUserState userID w).2)).Cart, 1 ≤ i.Quantity := by
    intro n hn i hi
    rcases cart_after_selectQuantity userID w n with h | ⟨p, e, h⟩
    · rw [h] at hi; exact hpos i hi
    · rw [h] at hi
      simp only [List.mem_append, List.mem_singleton] at hi
      rcases hi with hi | rfl
      · exact hpos i hi
      · exact hn
  have hquick : ∀ key, ∀ i ∈ (observedState userID
      (handleQuickAddProduct userID key (GetUserState userID w).2)).Cart, 1 ≤ i.Quantity := by
    intro key
    apply handleQuickAdd_positive
    rw [observedState_getUserState]
    exact fun i hi => ⟨hpos i hi, hfit i hi⟩
  have hdyn : (startsWithStr tok "QUICK_ADD_" = true ∨ startsWithStr tok "QUICK_VIEW_" = true) →
      startsWithStr tok "ORDER_PRODUCT_" = false →
      ∀ i ∈ (observedState userID (handlePostback c userID tok w)).Cart, 1 ≤ i.Quantity := by
    intro hq hp
    by_cases hstatic : tok ∈ staticTokens
    · have hs := static_quick_tokens tok hstatic
      rcases hq with hq | hq
      · have : tok = "QUICK_ADD_MORE" := hs.1 hq
        subst this
        have hrun : handlePostback c userID "QUICK_ADD_MORE" w =
            ShowMiniOrderForm userID ((GetUserState userID w).2.modify (GetUserState userID w).1
              (fun s => { s with State := "quick_ordering" })) := by
          simp [handlePostback]
        rw [hrun, observedState_showMiniOrderForm, observedState_modify_get]
        exact hpos
      · rw [hs.2] at hq; exact absurd hq (by decide)
    · obtain ⟨key, hrun⟩ := handlePostback_quick c userID tok w hstatic hp hq
      rw [hrun]
      exact hquick key
  rcases htok with htok | ⟨key, rfl | rfl⟩
  · simp only [List.mem_cons, List.mem_singleton, List.not_mem_nil, or_false] at htok
    rcases htok with rfl | rfl | rfl | rfl | rfl | rfl
    · have hrun : handlePostback c userID "QTY_1" w = selectQuantity userID 1
          (GetUserState userID w).1 (GetUserState userID w).2 := by simp [handlePostback]
      rw [hrun]; exact hqty 1 (by decide)
    · have hrun : handlePostback c userID "QTY_2" w = selectQuantity userID 2
          (GetUserState userID w).1 (GetUserState userID w).2 := by simp [handlePostback]
      rw [hrun]; exact hqty 2 (by decide)
    · have hrun : handlePostback c userID "QTY_3" w = selectQuantity userID 3
          (GetUserState userID w).1 (GetUserState userID w).2 := by simp [handlePostback]
      rw [hrun]; exact hqty 3 (by decide)
    · have hrun : handlePostback c userID "QTY_4" w = selectQuantity userID 4
          (GetUserState userID w).1 (GetUserState userID w).2 := by simp [handlePostback]
      rw [hrun]; exact hqty 4 (by decide)
    · have hrun : handlePostback c userID "QTY_5" w = selectQuantity userID 5
          (GetUserState userID w).1 (GetUserState userID w).2 := by simp [handlePostback]
      rw [hrun]; exact hqty 5 (by decide)
    · have hrun : handlePostback c userID "QUICK_CLEAR_CART" w =
          handleQuickClearCart userID (GetUserState userID w).2 := by simp [handlePostback]
      rw [hrun, cart_after_quickClear]
      simp
  · exact hdyn (Or.inl (quickAdd_starts key).1) (quickAdd_starts key).2
  · exact hdyn (Or.inr (quickView_starts key).1) (quickView_starts key).2

/-- Witness of C16: one more chocolate cake through `QUICK_ADD_QUICK_ORDER_CAKE`. -/
theorem C16_cart_quantities_stay_positive_witness :
    (observedState "u1" (handlePostback openShop "u1" "QUICK_ADD_QUICK_ORDER_CAKE"
      (worldWith "u1" (quickOrdering "en")))).Cart.all (fun i => decide (1 ≤ i.Quantity)) =
      true :=
  List.all_eq_true.mpr (fun i hi => decide_eq_true
    (C16_cart_quantities_stay_positive openShop (worldWith "u1" (quickOrdering "en")) "u1"
      "QUICK_ADD_QUICK_ORDER_CAKE" (Or.inr ⟨"QUICK_ORDER_CAKE", Or.inl (by decide)⟩)
      (by decide) (by decide) i hi))

/-! ## Pricing and submission: claims -/

/-- The running total after one pass of `quickCartLines` is the total before
it plus the sum of unit price times quantity, the unit price being the
`priceMap` entry or 20. -/
theorem quickCartLines_total (cart : List CartItem) :
    ∀ (total : Int) (summary : String),
      (quickCartLines cart total summary).1 =
        total + (cart.map (fun i => (priceMap.lookup i.Product).getD 20 * i.Quantity)).sum := by
  unfold quickCartLines
  induction cart with
  | nil => intro total summary; simp
  | cons a t ih =>
    intro total summary
    simp only [List.foldl_cons, List.map_cons, List.sum_cons]
    rw [ih]
    ring

/-- C17 (evaluation at the failing input). For a cart of one chocolate cake
(unit price 25) the summary of `showQuickCartSummary` shows the total `$25.00`
when the language is `en` and `$50.00` when the language is `my`: the second
pricing pass, run for `my`, adds to the total of the first. -/
theorem C17_quick_cart_total_doubles_for_my :
    (showQuickCartSummary "u1" (worldWith "u1" (oneCake "en"))).sent =
      [.quickReplies "u1"
        ("🛒 **Your Quick Cart:**\n\n🍰 Chocolate Cake × 1 = $25.00\n" ++
          "\n**Total: $25.00**\n\nWhat would you like to do?")
        [⟨"text", "➕ Add More", "QUICK_ADD_MORE"⟩, ⟨"text", "🛒 Review", "QUICK_SHOW_CART"⟩,
         ⟨"text", "✅ Checkout", "QUICK_CHECKOUT"⟩, ⟨"text", "❌ Clear", "QUICK_CLEAR_CART"⟩]] ∧
    (showQuickCartSummary "u1" (worldWith "u1" (oneCake "my"))).sent =
      [.quickReplies "u1"
        ("🛒 **သင်၏စတုံအိုး:**\n\n🍰 Chocolate Cake × 1 = $25.00\n" ++
          "\n**စုစုပေါင်း: $50.00**\n\nဘာလုပ်မည်လဲ?")
        [⟨"text", "➕ Add More", "QUICK_ADD_MORE"⟩, ⟨"text", "🛒 Review", "QUICK_SHOW_CART"⟩,
         ⟨"text", "✅ Checkout", "QUICK_CHECKOUT"⟩, ⟨"text", "❌ Clear", "QUICK_CLEAR_CART"⟩]] := by
  constructor <;> decide

/-- C19 (evaluation at the failing input). The submission `deliveryRequest`
has `delivery_type = delivery`; the one order row persisted for it has
`delivery_fee = 0` and `total_amount = subtotal = 21`: the `INSERT` of
`CreateChatOrder` writes the literal 0 for the fee, whatever the delivery
type. -/
theorem C19_delivery_order_has_zero_fee :
    deliveryRequest.DeliveryType = "delivery" ∧
    (CreateChatOrder wholeAmounts insertsOk emptyTables (.ok deliveryRequest)).tables.orders =
      [{ id := 1, customer_name := "Ana (555-0101)", delivery_type := "delivery",
         address := "12 Mill Lane", status := "pending", total_items := 3, subtotal := 21,
         delivery_fee := 0, total_amount := 21, sender_id := "u1" }] ∧
    ((CreateChatOrder wholeAmounts insertsOk emptyTables (.ok deliveryRequest)).tables.orders.map
      (fun row => row.delivery_fee)) = [0] := by
  decide

/-- C20. An empty cart is rejected before anything is persisted:
`CreateChatOrder` on a decoded request without items answers
`400 cart is empty`, sends no statement to the database, leaves the tables
unchanged and sends no message; and `handleQuickCheckout` for a user whose
cart is empty sends the "Cart is empty" message first and leaves the user in
`quick_ordering` with every other field unchanged, not in `awaiting_name`. -/
theorem C20_empty_cart_rejected {F : Type} (fl : FloatOps F) (env : SubmitEnv)
    (db : ShopTables F) (req : ChatOrderRequest F) (w : World) (userID : String)
    (hitems : req.Items = []) (hcart : (observedState userID w).Cart = []) :
    (CreateChatOrder fl env db (.ok req)).resp = some (httpError "cart is empty" 400) ∧
    (CreateChatOrder fl env db (.ok req)).statements = [] ∧
    (CreateChatOrder fl env db (.ok req)).tables = db ∧
    (CreateChatOrder fl env db (.ok req)).sends = [] ∧
    observedState userID (handleQuickCheckout userID w) =
      { observedState userID w with State := "quick_ordering" } ∧
    (observedState userID (handleQuickCheckout userID w)).State ≠ "awaiting_name" ∧
    (∃ rest, (handleQuickCheckout userID w).sent =
      w.sent ++ .message userID "❌ Cart is empty. Please add items first!" :: rest) := by
  have hobs : (GetUserState userID w).2.heap (GetUserState userID w).1 =
      observedState userID w := rfl
  have hrun : handleQuickCheckout userID w =
      ShowMiniOrderForm userID ((GetUserState userID w).2.emit
        (.message userID "❌ Cart is empty. Please add items first!")) := by
    unfold handleQuickCheckout
    simp only [hobs, hcart, List.length_nil, if_true]
  have hstate : observedState userID (handleQuickCheckout userID w) =
      { observedState userID w with State := "quick_ordering" } := by
    rw [hrun, observedState_showMiniOrderForm, observedState_emit_get]
  refine ⟨?_, ?_, ?_, ?_, hstate, ?_, ?_⟩
  · simp [CreateChatOrder, hitems]
  · simp [CreateChatOrder, hitems]
  · simp [CreateChatOrder, hitems]
  · simp [CreateChatOrder, hitems]
  · rw [hstate]
    show "quick_ordering" ≠ "awaiting_name"
    decide
  · rw [hrun]
    unfold ShowMiniOrderForm
    simp only [emit_sent, modify_sent, getUserState_sent, List.append_assoc,
      List.singleton_append]
    exact ⟨_, rfl⟩

/-- Witness of C20: an empty submission and a user never seen before. -/
theorem C20_empty_cart_rejected_witness :
    (CreateChatOrder wholeAmounts insertsOk emptyTables
        (.ok { deliveryRequest with Items := [] })).resp =
      some (httpError "cart is empty" 400) ∧
    (CreateChatOrder wholeAmounts insertsOk emptyTables
        (.ok { deliveryRequest with Items := [] })).statements = [] ∧
    (observedState "u1" (handleQuickCheckout "u1" World.start)).State ≠ "awaiting_name" :=
  have h := C20_empty_cart_rejected wholeAmounts insertsOk emptyTables
    { deliveryRequest with Items := [] } World.start "u1" rfl rfl
  ⟨h.1, h.2.1, h.2.2.2.2.2.1⟩

/-! ## Atomicity of order persistence: claims -/

theorem txInsertItems_ok {F : Type} (env : TxEnv) (orderID : Int) :
    ∀ (items : List (OrderItemRow F)) (i : Nat) (rows : List (OrderItemRow F)),
      txInsertItems env orderID items i = .ok rows →
      rows = items.map (fun item => { item with order_id := orderID }) := by
  intro items
  induction items with
  | nil => intro i rows h; simp [txInsertItems] at h; simp [h]
  | cons a t ih =>
    intro i rows h
    unfold txInsertItems at h
    cases he : env.itemInsertErr i with
    | some e => simp [he] at h
    | none =>
      simp only [he] at h
      cases ht : txInsertItems env orderID t (i + 1) with
      | error e => simp [ht] at h
      | ok rest =>
        simp only [ht, Except.ok.injEq] at h
        rw [← h, ih (i + 1) rest ht]
        rfl

/-- C21. `models.CreateOrder` is all-or-nothing on the rows of the store:
when it returns nil, table `orders` has gained exactly the order row (with the
id the insert returned) and table `order_items` exactly one row per item, each
carrying that order id; when it returns an error (nil handle, `Begin`, the
order insert, any item insert or `Commit` failing), both tables hold the rows
they held before. -/
theorem C21_create_order_all_or_nothing {F : Type} (env : TxEnv) (db : ShopTables F)
    (o : OrderRow F) (items : List (OrderItemRow F)) :
    ((CreateOrder env db o items).err = none →
      (CreateOrder env db o items).tables.orders =
        db.orders ++ [{ o with id := db.nextOrderID }] ∧
      (CreateOrder env db o items).tables.order_items =
        db.order_items ++ items.map (fun item => { item with order_id := db.nextOrderID })) ∧
    ((CreateOrder env db o items).err ≠ none →
      (CreateOrder env db o items).tables.orders = db.orders ∧
      (CreateOrder env db o items).tables.order_items = db.order_items) := by
  unfold CreateOrder
  cases hc : db.connected with
  | false => simp
  | true =>
    cases hb : env.beginErr with
    | some e => simp
    | none =>
      cases ho : env.orderInsertErr with
      | some e => simp
      | none =>
        cases ht : txInsertItems env db.nextOrderID items 0 with
        | error e => simp [ht]
        | ok rows =>
          cases hm : env.commitErr with
          | some e => simp [ht]
          | none =>
            have := txInsertItems_ok env db.nextOrderID items 0 rows ht
            simp [ht, this]

/-- Witness of C21: the order of Ana with two items, once with every step
succeeding and once with the second item insert failing. -/
theorem C21_create_order_all_or_nothing_witness :
    ((CreateOrder txOk emptyTables anaOrder anaItems).tables.orders =
        emptyTables.orders ++ [{ anaOrder with id := emptyTables.nextOrderID }] ∧
      (CreateOrder txOk emptyTables anaOrder anaItems).tables.order_items =
        emptyTables.order_items ++
          anaItems.map (fun item => { item with order_id := emptyTables.nextOrderID })) ∧
    ((CreateOrder txSecondItemFails emptyTables anaOrder anaItems).tables.orders =
        emptyTables.orders ∧
      (CreateOrder txSecondItemFails emptyTables anaOrder anaItems).tables.order_items =
        emptyTables.order_items) :=
  ⟨(C21_create_order_all_or_nothing txOk emptyTables anaOrder anaItems).1 (by decide),
   (C21_create_order_all_or_nothing txSecondItemFails emptyTables anaOrder anaItems).2
     (by decide)⟩

/-- C22 (evaluation at the failing input). A submission of two items on a
database where the insert of the second item fails: the order row and the
first item row stay in the tables, the second item row is missing, and the
answer is `200` with `success = true`. -/
theorem C22_chat_order_partial_persist :
    (CreateChatOrder wholeAmounts secondItemFails emptyTables (.ok deliveryRequest)).tables =
      { connected := true,
        orders := [{ id := 1, customer_name := "Ana (555-0101)", delivery_type := "delivery",
                     address := "12 Mill Lane", status := "pending", total_items := 3,
                     subtotal := 21, delivery_fee := 0, total_amount := 21,
                     sender_id := "u1" }],
        order_items := [⟨1, "Croissant", 2, 8⟩], nextOrderID := 2 } ∧
    (CreateChatOrder wholeAmounts secondItemFails emptyTables (.ok deliveryRequest)).resp =
      some ⟨200, .json [("success", .bool true), ("order_id", .int 1),
        ("message", .str "Order placed successfully!")]⟩ ∧
    (CreateChatOrder wholeAmounts secondItemFails emptyTables (.ok deliveryRequest)).logs =
      ["📦 Creating order for user u1 with 2 items",
       "⚠️  Failed to insert item Coffee: pq: connection reset",
       "✅ Order #1 created successfully"] := by
  decide

/-! ## Conversation flow: lemmas -/

theorem observedState_showMainMenuSimple (userID : String) (w : World) :
    observedState userID (showMainMenuSimple userID w) = observedState userID w := by
  unfold showMainMenuSimple
  exact observedState_emit_get userID w _

theorem observedState_startOrderingFlow (userID : String) (w : World) :
    observedState userID (startOrderingFlow userID w) =
      { observedState userID w with State := "main_menu" } := by
  unfold startOrderingFlow
  simp only []
  split_ifs <;>
    simp only [observedState_showMainMenuSimple, observedState_emit, observedState_modify_get]

theorem observedState_askQuantity (userID : String) (w : World) :
    observedState userID (askQuantity userID w) = observedState userID w := by
  unfold askQuantity
  exact observedState_emit_get userID w _

theorem observedState_askName (userID : String) (w : World) :
    observedState userID (askName userID w) =
      { observedState userID w with State := "awaiting_name" } := by
  unfold askName
  simp only [observedState_emit, observedState_modify_get]

theorem observedState_showCart (userID : String) (w : World) :
    observedState userID (showCart userID w) =
      if (observedState userID w).Cart.length = 0 then
        { observedState userID w with State := "main_menu" }
      else observedState userID w := by
  unfold showCart
  simp only [observedState_get]
  split_ifs
  · rw [observedState_startOrderingFlow, observedState_emit_get]
  · rw [observedState_emit_get]

theorem observedState_showOrderSummary (c : Collab) (userID : String) (w : World) :
    observedState userID (showOrderSummary c userID w) = observedState userID w := by
  unfold showOrderSummary
  exact observedState_emit_get userID w _

/-- `showProducts` in terms of the gate: the gate's world when it reports
closed, and `State = awaiting_product` on top of the gate's world otherwise. -/
theorem showProducts_gate (c : Collab) (userID : String) (w : World) :
    ((c.checkBusinessHours userID w).1 = false →
      showProducts c userID w = (c.checkBusinessHours userID w).2) ∧
    ((c.checkBusinessHours userID w).1 = true →
      observedState userID (showProducts c userID w) =
        { observedState userID (c.checkBusinessHours userID w).2 with
          State := "awaiting_product" }) := by
  unfold showProducts
  constructor
  · intro h; simp [h]
  · intro h
    simp only [h, Bool.not_true, Bool.false_eq_true, if_false, observedState_emit,
      observedState_modify_get]

/-- The state observed after a static product case. -/
theorem observedState_selectCatalogProduct (userID key : String) (w : World) :
    observedState userID (selectCatalogProduct userID key (GetUserState userID w).1
        (GetUserState userID w).2) =
      if (observedState userID w).State ≠ "awaiting_product" then observedState userID w
      else
        { observedState userID w with
          CurrentProduct := (catalogEntry key).Name, CurrentEmoji := (catalogEntry key).Emoji,
          State := "awaiting_quantity" } := by
  have hreg := getUserState_registers userID w
  unfold selectCatalogProduct
  simp only [observedState_get]
  split_ifs with h
  · exact observedState_emit_get userID w _
  · rw [observedState_askQuantity, observedState_emit]
    have : (((GetUserState userID w).2.modify (GetUserState userID w).1 fun s =>
          { s with CurrentProduct := (catalogEntry key).Name }).modify (GetUserState userID w).1
          fun s => { s with CurrentEmoji := (catalogEntry key).Emoji }).modify
          (GetUserState userID w).1 (fun s => { s with State := "awaiting_quantity" }) =
        (GetUserState userID w).2.modify (GetUserState userID w).1 (fun s =>
          { s with CurrentProduct := (catalogEntry key).Name,
                   CurrentEmoji := (catalogEntry key).Emoji, State := "awaiting_quantity" }) := by
      simp [World.modify]
    rw [this, observedState_modify_get]

/-- The state observed after a quantity case. -/
theorem observedState_selectQuantity (userID : String) (n : Int) (w : World) :
    observedState userID (selectQuantity userID n (GetUserState userID w).1
        (GetUserState userID w).2) =
      if (observedState userID w).State ≠ "awaiting_quantity" then observedState userID w
      else
        { observedState userID w with
          Cart := (observedState userID w).Cart ++
            [⟨(observedState userID w).CurrentProduct, (observedState userID w).CurrentEmoji, n⟩]
          CurrentProduct := "", CurrentEmoji := "", CurrentQuantity := 0
          State := "awaiting_cart_decision" } := by
  unfold selectQuantity
  simp only [observedState_get]
  split_ifs with h
  · exact observedState_emit_get userID w _
  · rw [observedState_addToCart, observedState_emit, observedState_modify_get]

/-- The state observed after `CHECKOUT`, whatever the cart. -/
theorem observedState_checkout (c : Collab) (userID : String) (w : World) :
    observedState userID (handlePostback c userID "CHECKOUT" w) =
      { observedState userID w with State := "awaiting_name" } := by
  have hrun : handlePostback c userID "CHECKOUT" w =
      askName userID ((showCart userID (GetUserState userID w).2).emit (.typing userID true)) := by
    simp [handlePostback]
  rw [hrun, observedState_askName, observedState_emit, observedState_showCart,
    observedState_getUserState]
  split_ifs <;> rfl

theorem observedState_pickup (c : Collab) (userID : String) (w : World) :
    observedState userID (handlePostback c userID "PICKUP" w) =
      { observedState userID w with
        DeliveryType := "pickup", Address := "Pickup at store", State := "confirming" } := by
  have hrun : handlePostback c userID "PICKUP" w =
      showOrderSummary c userID
        (((GetUserState userID w).2.modify (GetUserState userID w).1
          (fun s => { s with DeliveryType := "pickup", Address := "Pickup at store",
                             State := "confirming" })).emit (.typing userID true)) := by
    simp [handlePostback, World.modify]
  rw [hrun, observedState_showOrderSummary, observedState_emit, observedState_modify_get]

theorem observedState_langEn (c : Collab) (userID : String) (w : World) :
    observedState userID (handlePostback c userID "LANG_EN" w) =
      { observedState userID w with Language := "en", State := "main_menu" } := by
  have hrun : handlePostback c userID "LANG_EN" w =
      startOrderingFlow userID
        (((GetUserState userID w).2.modify (GetUserState userID w).1
          (fun s => { s with Language := "en", State := "greeting" })).emit
            (.message userID "✅ English selected!")) := by
    simp [handlePostback, World.modify]
  rw [hrun, observedState_startOrderingFlow, observedState_emit, observedState_modify_get]

/-! ## Conversation flow: claims -/

/-- C23. For each of `MENU_ORDER_PRODUCTS`, `ADD_MORE_ITEMS` and `SHOW_MENU`
the business-hours gate is consulted on a world `before` that holds the
user's state as it was. When the gate reports closed, `handlePostback` ends in
exactly the world the gate left, so `State` and cart are as the gate left them
and `State` is `awaiting_product` only if it already was; when the gate
reports open, the state observed afterwards is the one the gate left with
`State` set to `awaiting_product`. -/
theorem C23_business_hours_gate (c : Collab) (w : World) (userID tok : String)
    (htok : tok ∈ ["MENU_ORDER_PRODUCTS", "ADD_MORE_ITEMS", "SHOW_MENU"]) :
    ∃ before : World,
      observedState userID before = observedState userID w ∧
      ((c.checkBusinessHours userID before).1 = false →
        handlePostback c userID tok w = (c.checkBusinessHours userID before).2 ∧
        observedState userID (handlePostback c userID tok w) =
          observedState userID (c.checkBusinessHours userID before).2 ∧
        ((observedState userID (c.checkBusinessHours userID before).2).State ≠
            "awaiting_product" →
          (observedState userID (handlePostback c userID tok w)).State ≠ "awaiting_product")) ∧
      ((c.checkBusinessHours userID before).1 = true →
        observedState userID (handlePostback c userID tok w) =
          { observedState userID (c.checkBusinessHours userID before).2 with
            State := "awaiting_product" }) := by
  have key : ∀ before : World, handlePostback c userID tok w = showProducts c userID before →
      ((c.checkBusinessHours userID before).1 = false →
        handlePostback c userID tok w = (c.checkBusinessHours userID before).2 ∧
        observedState userID (handlePostback c userID tok w) =
          observedState userID (c.checkBusinessHours userID before).2 ∧
        ((observedState userID (c.checkBusinessHours userID before).2).State ≠
            "awaiting_product" →
          (observedState userID (handlePostback c userID tok w)).State ≠ "awaiting_product")) ∧
      ((c.checkBusinessHours userID before).1 = true →
        observedState userID (handlePostback c userID tok w) =
          { observedState userID (c.checkBusinessHours userID before).2 with
            State := "awaiting_product" }) := by
    intro before hrun
    rw [hrun]
    obtain ⟨hclosed, hopen⟩ := showProducts_gate c userID before
    refine ⟨fun h => ?_, hopen⟩
    rw [hclosed h]
    exact ⟨rfl, rfl, fun hne => hne⟩
  simp only [List.mem_cons, List.mem_singleton, List.not_mem_nil, or_false] at htok
  rcases htok with rfl | rfl | rfl
  · exact ⟨(GetUserState userID w).2, observedState_getUserState userID w,
      key _ (by simp [handlePostback])⟩
  · exact ⟨(GetUserState userID w).2, observedState_getUserState userID w,
      key _ (by simp [handlePostback])⟩
  · have hrun : handlePostback c userID "SHOW_MENU" w =
        showMenu c userID (GetUserState userID w).2 := by simp [handlePostback]
    unfold showMenu at hrun
    refine ⟨_, ?_, key _ hrun⟩
    rw [observedState_emit, observedState_getUserState]

/-- Witness of C23: `MENU_ORDER_PRODUCTS` from a new user while the shop is closed. -/
theorem C23_business_hours_gate_witness :
    ∃ before : World,
      observedState "u1" before = observedState "u1" World.start ∧
      ((closedShop.checkBusinessHours "u1" before).1 = false →
        handlePostback closedShop "u1" "MENU_ORDER_PRODUCTS" World.start =
          (closedShop.checkBusinessHours "u1" before).2 ∧
        observedState "u1" (handlePostback closedShop "u1" "MENU_ORDER_PRODUCTS" World.start) =
          observedState "u1" (closedShop.checkBusinessHours "u1" before).2 ∧
        ((observedState "u1" (closedShop.checkBusinessHours "u1" before).2).State ≠
            "awaiting_product" →
          (observedState "u1" (handlePostback closedShop "u1" "MENU_ORDER_PRODUCTS"
            World.start)).State ≠ "awaiting_product")) ∧
      ((closedShop.checkBusinessHours "u1" before).1 = true →
        observedState "u1" (handlePostback closedShop "u1" "MENU_ORDER_PRODUCTS" World.start) =
          { observedState "u1" (closedShop.checkBusinessHours "u1" before).2 with
            State := "awaiting_product" }) :=
  C23_business_hours_gate closedShop World.start "u1" "MENU_ORDER_PRODUCTS" (by decide)

theorem observedState_unknown {w : World} {userID : String} (h : w.UserStates userID = none) :
    observedState userID w = initialUserState := by
  simp [observedState, GetUserState, h]

/-- C24. Scenario up to the confirmation step. For a user with no stored
state and a gate that reports open and leaves the world alone, the payloads
`LANG_EN`, `MENU_ORDER_PRODUCTS`, `ORDER_CHOCOLATE_CAKE`, `QTY_2`, `CHECKOUT`,
`PICKUP` leave the user with `Language = en`, a cart of the single entry
"Chocolate Cake" with quantity 2 (total items 2), `DeliveryType = pickup`,
`Address = Pickup at store` and `State = confirming`. -/
theorem C24_scenario_to_confirmation (c : Collab) (w : World) (userID : String)
    (hopen : ∀ u v, c.checkBusinessHours u v = (true, v))
    (hnew : w.UserStates userID = none) :
    observedState userID (runPostbacks c userID
        ["LANG_EN", "MENU_ORDER_PRODUCTS", "ORDER_CHOCOLATE_CAKE", "QTY_2", "CHECKOUT", "PICKUP"]
        w) =
      { State := "confirming", Language := "en", CurrentProduct := "", CurrentEmoji := "",
        CurrentQuantity := 0, Cart := [⟨"Chocolate Cake", "🍫", 2⟩], CustomerName := "",
        DeliveryType := "pickup", Address := "Pickup at store" } ∧
    totalItems [⟨"Chocolate Cake", "🍫", 2⟩] = 2 := by
  refine ⟨?_, by decide⟩
  simp only [runPostbacks, List.foldl_cons, List.foldl_nil]
  have s1 : observedState userID (handlePostback c userID "LANG_EN" w) =
      { initialUserState with Language := "en", State := "main_menu" } := by
    rw [observedState_langEn, observedState_unknown hnew]
  generalize handlePostback c userID "LANG_EN" w = w1 at s1
  have s2 : observedState userID (handlePostback c userID "MENU_ORDER_PRODUCTS" w1) =
      { initialUserState with Language := "en", State := "awaiting_product" } := by
    have hrun : handlePostback c userID "MENU_ORDER_PRODUCTS" w1 =
        showProducts c userID (GetUserState userID w1).2 := by simp [handlePostback]
    rw [hrun, (showProducts_gate c userID _).2 (by rw [hopen]), hopen,
      observedState_getUserState, s1]
  generalize handlePostback c userID "MENU_ORDER_PRODUCTS" w1 = w2 at s2
  have s3 : observedState userID (handlePostback c userID "ORDER_CHOCOLATE_CAKE" w2) =
      { initialUserState with
        Language := "en", CurrentProduct := "Chocolate Cake", CurrentEmoji := "🍫"
        State := "awaiting_quantity" } := by
    have hrun : handlePostback c userID "ORDER_CHOCOLATE_CAKE" w2 =
        selectCatalogProduct userID "Chocolate Cake" (GetUserState userID w2).1
          (GetUserState userID w2).2 := by simp [handlePostback]
    rw [hrun, observedState_selectCatalogProduct, s2]
    rfl
  generalize handlePostback c userID "ORDER_CHOCOLATE_CAKE" w2 = w3 at s3
  have s4 : observedState userID (handlePostback c userID "QTY_2" w3) =
      { initialUserState with
        Language := "en", Cart := [⟨"Chocolate Cake", "🍫", 2⟩]
        State := "awaiting_cart_decision" } := by
    have hrun : handlePostback c userID "QTY_2" w3 =
        selectQuantity userID 2 (GetUserState userID w3).1 (GetUserState userID w3).2 := by
      simp [handlePostback]
    rw [hrun, observedState_selectQuantity, s3]
    rfl
  generalize handlePostback c userID "QTY_2" w3 = w4 at s4
  have s5 : observedState userID (handlePostback c userID "CHECKOUT" w4) =
      { initialUserState with
        Language := "en", Cart := [⟨"Chocolate Cake", "🍫", 2⟩]
        State := "awaiting_name" } := by
    rw [observedState_checkout, s4]
  generalize handlePostback c userID "CHECKOUT" w4 = w5 at s5
  rw [observedState_pickup, s5]
  rfl

/-- Witness of C24: the scenario from the start of the process, shop open. -/
theorem C24_scenario_to_confirmation_witness :
    observedState "u1" (runPostbacks openShop "u1"
        ["LANG_EN", "MENU_ORDER_PRODUCTS", "ORDER_CHOCOLATE_CAKE", "QTY_2", "CHECKOUT", "PICKUP"]
        World.start) =
      { State := "confirming", Language := "en", CurrentProduct := "", CurrentEmoji := "",
        CurrentQuantity := 0, Cart := [⟨"Chocolate Cake", "🍫", 2⟩], CustomerName := "",
        DeliveryType := "pickup", Address := "Pickup at store" } :=
  (C24_scenario_to_confirmation openShop World.start "u1" (fun _ _ => rfl) rfl).1

/-- C27 (evaluation at the failing input). `ORDER_RED_VELVET`, accepted while
the user is in `awaiting_product`, reads the catalog under the key
"Red Velvet", which `ProductCatalog` does not have (its key is
"Red Velvet Cake"): `CurrentProduct` and `CurrentEmoji` become empty, no
catalog entry has the empty name, and the quantity question names no
product. -/
theorem C27_red_velvet_reads_missing_key :
    ProductCatalog.lookup "Red Velvet" = none ∧
    "" ∉ ProductCatalog.map (fun entry => entry.2.Name) ∧
    observedState "u1" (handlePostback openShop "u1" "ORDER_RED_VELVET"
        (worldWith "u1" browsing)) =
      { browsing with CurrentProduct := "", CurrentEmoji := "", State := "awaiting_quantity" } ∧
    (handlePostback openShop "u1" "ORDER_RED_VELVET" (worldWith "u1" browsing)).sent =
      [.typing "u1" true,
       .quickReplies "u1" "How many   would you like?"
        [⟨"text", "1", "QTY_1"⟩, ⟨"text", "2", "QTY_2"⟩, ⟨"text", "3", "QTY_3"⟩,
         ⟨"text", "4", "QTY_4"⟩, ⟨"text", "5", "QTY_5"⟩, ⟨"text", "⬅️ Back", "GO_BACK"⟩,
         ⟨"text", "❌ Cancel", "CANCEL_ORDER"⟩]] := by
  refine ⟨by decide, by decide, by rfl, by rfl⟩

/-- C28 (evaluation at the failing input). `CHECKOUT` from a user whose cart
is empty: `showCart` sends the cart-is-empty message and restarts the flow,
and `askName` runs all the same, so the last message asks for the name and the
user ends in `awaiting_name`. -/
theorem C28_checkout_with_empty_cart_asks_name :
    (observedState "u1" (worldWith "u1" browsing)).Cart = [] ∧
    observedState "u1" (handlePostback openShop "u1" "CHECKOUT" (worldWith "u1" browsing)) =
      { browsing with State := "awaiting_name" } ∧
    (handlePostback openShop "u1" "CHECKOUT" (worldWith "u1" browsing)).sent.head? =
      some (.message "u1" "🛒 Your cart is empty!\n\nLet's start ordering!") ∧
    (handlePostback openShop "u1" "CHECKOUT" (worldWith "u1" browsing)).sent.getLast? =
      some (.quickReplies "u1" "Great! What's your name?"
        [⟨"text", "⬅️ Back to Cart", "GO_BACK"⟩, ⟨"text", "❌ Cancel", "CANCEL_ORDER"⟩]) := by
  refine ⟨by rfl, by rfl, by rfl, by rfl⟩

/-- C29 (evaluation at the failing input). For order 12 of thirteen coffees
at 5 (total 65) the confirmation text shows `<` for the order id, `=` for the
quantity and `A` for the total: each number is converted with
`string(rune(..))`, which yields the character with that code, not the decimal
digits `12`, `13` and `65`. -/
theorem C29_confirmation_text_not_decimal :
    (CreateChatOrder wholeAmounts insertsOk tablesAt12 (.ok thirteenCoffees)).resp =
      some ⟨200, .json [("success", .bool true), ("order_id", .int 12),
        ("message", .str "Order placed successfully!")]⟩ ∧
    (CreateChatOrder wholeAmounts insertsOk tablesAt12 (.ok thirteenCoffees)).sends =
      [("u1", "🎉 Order Confirmed!\n\nOrder #<\nCoffee × =\n\nTotal: $A\n" ++
        "Status: ⏳ Pending\n\nWe'll start preparing your order soon!")] ∧
    fmtInt 12 = "12" ∧ fmtInt 13 = "13" ∧ fmtInt 65 = "65" := by
  refine ⟨by decide, by rfl, by decide, by decide, by decide⟩

/-! ## Product validation and listing: claims -/

set_option maxRecDepth 20000 in
/-- C26 (evaluation at the failing input). A product whose name is 255
letters `a` long, with every other field valid, passes `Validate` although
its name is not less than 255 characters long: the check is
`len(p.Name) > 255`. And since `len` counts bytes, a name of 100 Burmese
letters (300 bytes) is refused with the name-length error although it is less
than 255 characters long. -/
theorem C26_validate_accepts_255_characters :
    (String.mk (List.replicate 255 'a')).length = 255 ∧
    (cakeNamed (String.mk (List.replicate 255 'a'))).Validate (fun x => decide (x < 0)) = none ∧
    (String.mk (List.replicate 100 'မ')).length = 100 ∧
    (cakeNamed (String.mk (List.replicate 100 'မ'))).Validate (fun x => decide (x < 0)) =
      some "product name must be less than 255 characters" := by
  refine ⟨by decide, by decide, by decide, by decide⟩

theorem lookup_validSortFields (s : String) :
    (validSortFields.lookup s).getD false = decide (s ∈ sortFields) := by
  by_cases h : s ∈ sortFields
  · have hd : decide (s ∈ sortFields) = true := decide_eq_true h
    rw [hd]
    simp only [sortFields, List.mem_cons, List.mem_singleton, List.not_mem_nil, or_false] at h
    rcases h with rfl | rfl | rfl | rfl | rfl | rfl <;> decide
  · have hd : decide (s ∈ sortFields) = false := decide_eq_false h
    rw [hd]
    simp only [sortFields, List.mem_cons, List.mem_singleton, List.not_mem_nil, or_false,
      not_or] at h
    obtain ⟨h1, h2, h3, h4, h5, h6⟩ := h
    have b1 : (s == "name") = false := by simpa using h1
    have b2 : (s == "price") = false := by simpa using h2
    have b3 : (s == "stock") = false := by simpa using h3
    have b4 : (s == "created_at") = false := by simpa using h4
    have b5 : (s == "views") = false := by simpa using h5
    have b6 : (s == "purchases") = false := by simpa using h6
    simp [validSortFields, List.lookup, b1, b2, b3, b4, b5, b6]

/-- The sort clause names the requested field and direction when they are on
the whitelists, and `created_at` and `DESC` otherwise. -/
theorem sortClause_eq (sortBy sortDir : String) :
    sortClause sortBy sortDir =
      " ORDER BY " ++ (if sortBy ∈ sortFields then sortBy else "created_at") ++ " " ++
        (if sortDir = "ASC" ∨ sortDir = "DESC" then sortDir else "DESC") := by
  have hdir : (if sortDir ≠ "ASC" ∧ sortDir ≠ "DESC" then "DESC" else sortDir) =
      (if sortDir = "ASC" ∨ sortDir = "DESC" then sortDir else "DESC") := by
    by_cases h1 : sortDir = "ASC"
    · simp [h1]
    · by_cases h2 : sortDir = "DESC"
      · simp [h2]
      · simp [h1, h2]
  unfold sortClause
  simp only [hdir]
  by_cases he : sortBy = ""
  · subst he
    have : ("" : String) ∉ sortFields := by decide
    simp only [if_true, lookup_validSortFields, if_neg this]
    have h2 : decide ("created_at" ∈ sortFields) = true := by decide
    simp [h2]
  · simp only [if_neg he, lookup_validSortFields]
    by_cases hin : sortBy ∈ sortFields
    · simp [hin]
    · simp [hin]

theorem addFilter_text {F : Type} (b : QueryBuild F) (clause : Int → String) (arg : SqlArg F) :
    ((addFilter b clause arg).query, (addFilter b clause arg).argNum) =
      addClause (b.query, b.argNum) clause := rfl

/-- The query text of `GetProducts` is built from which filters apply and
from the sort clause only. -/
theorem productsQuery_text {F : Type} (parseFloat : String → Option F)
    (q : ProductQueryParams) :
    (productsQuery parseFloat q).1 =
      productsQueryText (decide (q.category ≠ "")) (decide (q.status ≠ ""))
        (decide (q.search ≠ ""))
        (decide (q.min_price ≠ "") && (parseFloat q.min_price).isSome)
        (decide (q.max_price ≠ "") && (parseFloat q.max_price).isSome)
        (if q.sort_by ∈ sortFields then q.sort_by else "created_at")
        (if q.sort_dir = "ASC" ∨ q.sort_dir = "DESC" then q.sort_dir else "DESC") := by
  unfold productsQuery productsQueryText
  simp only [sortClause_eq]
  by_cases h1 : q.category = "" <;> by_cases h2 : q.status = "" <;>
    by_cases h3 : q.search = "" <;> by_cases h4 : q.min_price = "" <;>
    by_cases h5 : q.max_price = "" <;>
    cases h6 : parseFloat q.min_price <;> cases h7 : parseFloat q.max_price <;>
    simp [h1, h2, h3, h4, h5, h6, h7, addFilter, addClause, String.append_assoc]

/-- C30. For every combination of request parameters the sort clause that
`GetProducts` interpolates is `" ORDER BY f d"` with `f` one of `name`,
`price`, `stock`, `created_at`, `views`, `purchases` and `d` one of `ASC`,
`DESC`: `f` is `sort_by` when that is on the list and `created_at` otherwise
(the empty string included), `d` is `sort_dir` when that is exactly `ASC` or
`DESC` and `DESC` otherwise; and the whole query text is determined by which
filters apply together with `f` and `d`, every other request value being
passed as a bound argument. -/
theorem C30_order_by_whitelisted {F : Type} (parseFloat : String → Option F)
    (q : ProductQueryParams) :
    ∃ f d, f ∈ sortFields ∧ d ∈ ["ASC", "DESC"] ∧
      sortClause q.sort_by q.sort_dir = " ORDER BY " ++ f ++ " " ++ d ∧
      (q.sort_by ∈ sortFields → f = q.sort_by) ∧
      (q.sort_by ∉ sortFields → f = "created_at") ∧
      (q.sort_dir = "ASC" ∨ q.sort_dir = "DESC" → d = q.sort_dir) ∧
      (¬(q.sort_dir = "ASC" ∨ q.sort_dir = "DESC") → d = "DESC") ∧
      (productsQuery parseFloat q).1 =
        productsQueryText (decide (q.category ≠ "")) (decide (q.status ≠ ""))
          (decide (q.search ≠ ""))
          (decide (q.min_price ≠ "") && (parseFloat q.min_price).isSome)
          (decide (q.max_price ≠ "") && (parseFloat q.max_price).isSome) f d := by
  refine ⟨if q.sort_by ∈ sortFields then q.sort_by else "created_at",
    if q.sort_dir = "ASC" ∨ q.sort_dir = "DESC" then q.sort_dir else "DESC",
    ?_, ?_, sortClause_eq _ _, fun h => if_pos h, fun h => if_neg h, fun h => if_pos h,
    fun h => if_neg h, productsQuery_text parseFloat q⟩
  · split_ifs with h
    · exact h
    · decide
  · split_ifs with h
    · rcases h with h | h <;> simp [h]
    · decide

end BakeFlow
